import Mathlib

/-!
# VisRTX renderer variants: factory, commit, parameter registry, pipeline assembly

A shallow embedding of `src/device/renderer/Renderer.cpp`, `DiffusePathTracer.cpp`,
`SciVis.cpp`, `Debug.cpp` and the `OPTIX_CHECK` helper of `src/device/optix_visrtx.h`.

Conventions of the embedding:
* a `std::string` / `std::string_view` is a `List Char` (`Str`);
* `size_t` positions are `Nat`, and `std::string::npos` is `none`;
* `int` values are `Int` (no arithmetic is done on them, only comparisons);
* `float` values are exact rationals;
* a `nullptr` result is `none`.
-/

namespace visrtx

/-! ## Strings -/

/-- A C++ string, as its sequence of characters. -/
abbrev Str := List Char

/-- The position of the first character at or after `pos` that occurs in `delim`
(`std::string::find_first_of`); `none` is `npos`. -/
def find_first_of (input delim : Str) (pos : Nat) : Option Nat :=
  match (input.drop pos).findIdx? (fun c => delim.contains c) with
  | some k => some (pos + k)
  | none => none

/-- The position of the first character at or after `pos` that does not occur in `delim`
(`std::string::find_first_not_of`); `none` is `npos`. -/
def find_first_not_of (input delim : Str) (pos : Nat) : Option Nat :=
  match (input.drop pos).findIdx? (fun c => !delim.contains c) with
  | some k => some (pos + k)
  | none => none

/-- The call `input.substr(begin, len)`; a length of `none` is `npos` (up to the end). -/
def substr (input : Str) (begin : Nat) (len : Option Nat) : Str :=
  match len with
  | some n => (input.drop begin).take n
  | none => input.drop begin

/-- The `while (true)` loop of the `splitString` lambda of `make_renderer`.  `pos` is the
loop variable (`none` when it holds `npos`), `tokens` the vector built so far.  Each
iteration uses one unit of `fuel`; `none` is returned when the fuel runs out before the
loop reaches its `return`. -/
def splitLoop (input delim : Str) : Nat → Option Nat → List Str → Option (List Str)
  | 0, _, _ => none
  | fuel + 1, pos, tokens =>
    match pos.bind (find_first_not_of input delim) with
    | none => some tokens
    | some begin =>
      let end_ := find_first_of input delim begin
      splitLoop input delim fuel end_
        (tokens ++ [substr input begin (end_.map (fun e => e - begin))])

/-- The `splitString` lambda of `make_renderer`, run with one unit of fuel per character
of the input plus one. -/
def splitString (input delim : Str) : Option (List Str) :=
  splitLoop input delim (input.length + 1) (some 0) []

/-! ## Values and the parameter store -/

/-- A `vec3` of floats. -/
structure Vec3 where
  x : ℚ
  y : ℚ
  z : ℚ
  deriving DecidableEq

/-- A `vec4` of floats. -/
structure Vec4 where
  x : ℚ
  y : ℚ
  z : ℚ
  w : ℚ
  deriving DecidableEq

/-- The constructor `vec3(s)`: every component is `s`. -/
def Vec3.splat (s : ℚ) : Vec3 := ⟨s, s, s⟩

/-- The constructor `vec4(s)`: every component is `s`. -/
def Vec4.splat (s : ℚ) : Vec4 := ⟨s, s, s, s⟩

/-- The function `std::clamp(v, lo, hi)`: `(v < lo) ? lo : (hi < v) ? hi : v`. -/
def std_clamp {α : Type} [LT α] [DecidableRel (fun a b : α => a < b)] (v lo hi : α) : α :=
  if v < lo then lo else if hi < v then hi else v

/-- The scalar `glm::clamp(x, minVal, maxVal)`: `min(max(x, minVal), maxVal)`. -/
def glm_clamp1 (x minVal maxVal : ℚ) : ℚ := min (max x minVal) maxVal

/-- The function `glm::clamp` on `vec3`, applied to each component. -/
def glm_clamp (v minVal maxVal : Vec3) : Vec3 :=
  ⟨glm_clamp1 v.x minVal.x maxVal.x, glm_clamp1 v.y minVal.y maxVal.y,
    glm_clamp1 v.z minVal.z maxVal.z⟩

/-- The ANARI data types that occur in the renderer sources. -/
inductive ANARIDataType
  | ANARI_UNKNOWN
  | ANARI_STRING
  | ANARI_BOOL
  | ANARI_INT32
  | ANARI_FLOAT32
  | ANARI_FLOAT32_VEC3
  | ANARI_FLOAT32_VEC4
  deriving DecidableEq, Repr

open ANARIDataType

/-- A typed parameter value held by an object's parameter store. -/
inductive ParamValue
  | int32 (v : Int)
  | float32 (v : ℚ)
  | vec3 (v : Vec3)
  | vec4 (v : Vec4)
  | string (v : Str)
  deriving DecidableEq

/-- Modelled from the spec: the pending parameter store of an object (the class
`ParameterizedObject`, whose header is not among the sources): the named, typed values
that `commit` reads.  Each name occurs at most once when the store is built by
`setParam`. -/
abbrev ParamStore := List (Str × ParamValue)

/-- Modelled from the spec: the pending value of `name`, if one is set. -/
def findParam (ps : ParamStore) (name : Str) : Option ParamValue :=
  (ps.find? (fun p => p.1 = name)).map (fun p => p.2)

/-- Modelled from the spec: `setParam(name, v)` makes `v` the pending value of `name`,
replacing an earlier value of that name. -/
def setParam (ps : ParamStore) (name : Str) (v : ParamValue) : ParamStore :=
  match ps with
  | [] => [(name, v)]
  | p :: rest => if p.1 = name then (name, v) :: rest else p :: setParam rest name v

/-- Modelled from the spec: `getParam<int>(name, dflt)`: the pending value of `name` when
one of type `int` is set, the default otherwise. -/
def getParam_int (ps : ParamStore) (name : Str) (dflt : Int) : Int :=
  match findParam ps name with
  | some (.int32 v) => v
  | _ => dflt

/-- Modelled from the spec: `getParam<float>(name, dflt)`. -/
def getParam_float (ps : ParamStore) (name : Str) (dflt : ℚ) : ℚ :=
  match findParam ps name with
  | some (.float32 v) => v
  | _ => dflt

/-- Modelled from the spec: `getParam<vec3>(name, dflt)`. -/
def getParam_vec3 (ps : ParamStore) (name : Str) (dflt : Vec3) : Vec3 :=
  match findParam ps name with
  | some (.vec3 v) => v
  | _ => dflt

/-- Modelled from the spec: `getParam<vec4>(name, dflt)`. -/
def getParam_vec4 (ps : ParamStore) (name : Str) (dflt : Vec4) : Vec4 :=
  match findParam ps name with
  | some (.vec4 v) => v
  | _ => dflt

/-- Modelled from the spec: `getParam<std::string>(name, dflt)`. -/
def getParam_string (ps : ParamStore) (name : Str) (dflt : Str) : Str :=
  match findParam ps name with
  | some (.string v) => v
  | _ => dflt

/-! ## OptiX handles, descriptors and the device environment -/

/-- An opaque module handle; `none` is `nullptr`. -/
abbrev OptixModule := Option Nat

/-- An opaque program-group handle; `none` is `nullptr`. -/
abbrev OptixProgramGroup := Option Nat

/-- An opaque pipeline handle; `none` is `nullptr`. -/
abbrev OptixPipeline := Option Nat

/-- An opaque device-context handle; `none` is `nullptr`. -/
abbrev OptixDeviceContext := Option Nat

/-- A device address. -/
abbrev CUdeviceptr := Nat

/-- The result code of an OptiX call. -/
inductive OptixResult
  | OPTIX_SUCCESS
  | OPTIX_ERROR (code : Nat)
  deriving DecidableEq

open OptixResult

/-- The severities of the message channel. -/
inductive ANARIStatusSeverity
  | ANARI_SEVERITY_FATAL_ERROR
  | ANARI_SEVERITY_ERROR
  | ANARI_SEVERITY_WARNING
  | ANARI_SEVERITY_PERFORMANCE_WARNING
  | ANARI_SEVERITY_INFO
  | ANARI_SEVERITY_DEBUG
  deriving DecidableEq

open ANARIStatusSeverity

/-- The names of one hit group: closest-hit and any-hit entry points. -/
structure HitgroupFunctionNames where
  closestHit : Str
  anyHit : Str
  deriving DecidableEq

/-- The struct `OptixProgramGroupDesc` as `initOptixPipeline` fills it: the kind with the
members of the matching union arm.  A member left at its zero initialisation is `none`. -/
inductive OptixProgramGroupDesc
  | raygen (module : OptixModule) (entryFunctionName : Str)
  | miss (module : OptixModule) (entryFunctionName : Str)
  | hitgroup (moduleCH : OptixModule) (entryFunctionNameCH : Str)
      (moduleAH : OptixModule) (entryFunctionNameAH : Option Str)
      (moduleIS : OptixModule) (entryFunctionNameIS : Str)
  deriving DecidableEq

/-- The traversable-graph flags used by the sources. -/
inductive OptixTraversableGraphFlags
  | OPTIX_TRAVERSABLE_GRAPH_FLAG_ALLOW_ANY
  | OPTIX_TRAVERSABLE_GRAPH_FLAG_ALLOW_SINGLE_GAS
  | OPTIX_TRAVERSABLE_GRAPH_FLAG_ALLOW_SINGLE_LEVEL_INSTANCING
  deriving DecidableEq

/-- The constant `PAYLOAD_VALUES` of `optix_visrtx.h`. -/
def PAYLOAD_VALUES : Int := 5

/-- The constant `ATTRIBUTE_VALUES` of `optix_visrtx.h`. -/
def ATTRIBUTE_VALUES : Int := 4

/-- The struct `OptixPipelineCompileOptions`, with the members the sources set. -/
structure OptixPipelineCompileOptions where
  traversableGraphFlags : OptixTraversableGraphFlags
  usesMotionBlur : Bool
  numPayloadValues : Int
  numAttributeValues : Int
  exceptionFlagsNone : Bool
  pipelineLaunchParamsVariableName : Str
  deriving DecidableEq

/-- The struct `OptixPipelineLinkOptions`, with the member the sources set. -/
structure OptixPipelineLinkOptions where
  maxTraceDepth : Nat
  deriving DecidableEq

/-- The OptiX constant `OPTIX_SBT_RECORD_HEADER_SIZE`. -/
def OPTIX_SBT_RECORD_HEADER_SIZE : Nat := 32

/-- The OptiX constant `OPTIX_SBT_RECORD_ALIGNMENT`. -/
def OPTIX_SBT_RECORD_ALIGNMENT : Nat := 16

/-- The struct `SBTRecord`: nothing but the header that OptiX packs (its bytes are
opaque).  `RaygenRecord`, `MissRecord` and `HitgroupRecord` are aliases of it. -/
structure SBTRecord where
  header : List Nat
  deriving DecidableEq

/-- The value `sizeof(SBTRecord)`: the header size rounded up to the record alignment. -/
def sizeof_SBTRecord : Nat :=
  (OPTIX_SBT_RECORD_HEADER_SIZE + OPTIX_SBT_RECORD_ALIGNMENT - 1) / OPTIX_SBT_RECORD_ALIGNMENT
    * OPTIX_SBT_RECORD_ALIGNMENT

/-- The struct `OptixShaderBindingTable`, with the members `initOptixPipeline` writes.
The stride and count members are `unsigned int`. -/
structure OptixShaderBindingTable where
  raygenRecord : CUdeviceptr
  missRecordBase : CUdeviceptr
  missRecordStrideInBytes : Nat
  missRecordCount : Nat
  hitgroupRecordBase : CUdeviceptr
  hitgroupRecordStrideInBytes : Nat
  hitgroupRecordCount : Nat
  deriving DecidableEq

/-- One observable step of the device environment: an OptiX call with what it returned, a
record-buffer upload with the device address it produced, or a reported message. -/
inductive Event
  | programGroupCreate (desc : OptixProgramGroupDesc) (res : OptixResult)
      (programGroup : OptixProgramGroup)
  | pipelineCreate (compileOptions : OptixPipelineCompileOptions)
      (linkOptions : OptixPipelineLinkOptions) (programGroups : List OptixProgramGroup)
      (res : OptixResult) (pipeline : OptixPipeline)
  | sbtRecordPackHeader (programGroup : OptixProgramGroup) (res : OptixResult)
      (header : List Nat)
  | upload (records : List SBTRecord) (ptr : CUdeviceptr)
  | message (severity : ANARIStatusSeverity) (format : Str)
  deriving DecidableEq

/-- The external OptiX / CUDA library, as a deterministic environment: what each call
returns is a function of everything that happened before (`hist`) and of its arguments.
* `optixProgramGroupCreate` gives the result code, the handle left in the out-parameter
  and the log size left in `sizeof_log`;
* `optixPipelineCreate` likewise for the pipeline, given the pipeline handle before the
  call;
* `optixSbtRecordPackHeader` gives the result code and the header bytes left in the record;
* `upload` gives the device address of the buffer after the upload. -/
structure Optix where
  optixProgramGroupCreate : List Event → OptixDeviceContext → OptixProgramGroupDesc →
    OptixResult × OptixProgramGroup × Nat
  optixPipelineCreate : List Event → OptixDeviceContext → OptixPipelineCompileOptions →
    OptixPipelineLinkOptions → List OptixProgramGroup → OptixPipeline →
    OptixResult × OptixPipeline × Nat
  optixSbtRecordPackHeader : List Event → OptixProgramGroup → OptixResult × List Nat
  upload : List Event → List SBTRecord → CUdeviceptr

/-- The members of `DeviceGlobalState::RendererModules`. -/
structure RendererModules where
  debug : OptixModule
  raycast : OptixModule
  ambientOcclusion : OptixModule
  diffusePathTracer : OptixModule
  scivis : OptixModule
  deriving DecidableEq

/-- The members of `DeviceGlobalState::IntersectionModules`. -/
structure IntersectionModules where
  customIntersectors : OptixModule
  deriving DecidableEq

/-- The members of `DeviceGlobalState` that the renderer reads. -/
structure DeviceGlobalState where
  optixContext : OptixDeviceContext
  rendererModules : RendererModules
  intersectionModules : IntersectionModules
  deriving DecidableEq

/-- Modelled from the spec: a device-resident record buffer (the class `DeviceBuffer`,
whose header is not among the sources): the records last uploaded and the stable device
address usable as a binding-table base pointer. -/
structure DeviceBuffer where
  contents : List SBTRecord
  ptr : CUdeviceptr
  deriving DecidableEq

/-! ## Renderer objects -/

/-- The members of the `Renderer` base class: the pending parameter store it inherits,
the committed background colour and sample count, the device state it is bound to, and the
lazily built pipeline with its program groups, binding table and record buffers. -/
structure Renderer where
  params : ParamStore
  m_state : Option DeviceGlobalState
  m_bgColor : Vec4
  m_spp : Int
  m_raygenPGs : List OptixProgramGroup
  m_missPGs : List OptixProgramGroup
  m_hitgroupPGs : List OptixProgramGroup
  m_pipeline : OptixPipeline
  m_sbt : OptixShaderBindingTable
  m_raygenRecordsBuffer : DeviceBuffer
  m_missRecordsBuffer : DeviceBuffer
  m_hitgroupRecordsBuffer : DeviceBuffer
  deriving DecidableEq

/-- The enumeration `Debug::Method`. -/
inductive Method
  | PRIM_ID
  | GEOM_ID
  | INST_ID
  | NG
  | NG_ABS
  | NS
  | NS_ABS
  | RAY_UVW
  | IS_TRIANGLE
  | IS_VOLUME
  | BACKFACE
  deriving DecidableEq, Repr

/-- The class `Raycast` (its own source file is not among the sources): a `Renderer`. -/
structure Raycast extends Renderer
  deriving DecidableEq

/-- The class `AmbientOcclusion` (its own source file is not among the sources): a
`Renderer`. -/
structure AmbientOcclusion extends Renderer
  deriving DecidableEq

/-- The class `DiffusePathTracer`. -/
structure DiffusePathTracer extends Renderer where
  m_maxDepth : Int
  m_R : ℚ
  deriving DecidableEq

/-- The class `SciVis`. -/
structure SciVis extends Renderer where
  m_lightFalloff : ℚ
  m_aoSamples : Int
  m_aoColor : Vec3
  m_aoIntensity : ℚ
  deriving DecidableEq

/-- The class `Debug`. -/
structure Debug extends Renderer where
  m_method : Method
  deriving DecidableEq

/-- A pointer to a renderer of one of the five concrete classes (what `make_renderer`
returns as `Renderer *`). -/
inductive RendererObject
  | Raycast (o : visrtx.Raycast)
  | AmbientOcclusion (o : visrtx.AmbientOcclusion)
  | DiffusePathTracer (o : visrtx.DiffusePathTracer)
  | SciVis (o : visrtx.SciVis)
  | Debug (o : visrtx.Debug)
  deriving DecidableEq

/-- The base-class part of a renderer object. -/
def RendererObject.base : RendererObject → Renderer
  | .Raycast o => o.toRenderer
  | .AmbientOcclusion o => o.toRenderer
  | .DiffusePathTracer o => o.toRenderer
  | .SciVis o => o.toRenderer
  | .Debug o => o.toRenderer

/-- The default member initialisers of the renderer classes.  They are written in the class
headers, which are not among the sources, so they are a parameter of construction. -/
structure MemberInits where
  bgColor : Vec4
  spp : Int
  maxDepth : Int
  R : ℚ
  lightFalloff : ℚ
  aoSamples : Int
  aoColor : Vec3
  aoIntensity : ℚ
  method : Method

/-- Modelled from the spec: the base part of a freshly constructed renderer (the
constructor bodies of the concrete classes and the member initialisers are in headers
that are not among the sources): no pending parameter, not yet bound to a device state, no
pipeline and no program groups (the pipeline is built lazily on first access), an all-zero
binding table and empty record buffers. -/
def Renderer.new (init : MemberInits) : Renderer :=
  { params := []
    m_state := none
    m_bgColor := init.bgColor
    m_spp := init.spp
    m_raygenPGs := []
    m_missPGs := []
    m_hitgroupPGs := []
    m_pipeline := none
    m_sbt := ⟨0, 0, 0, 0, 0, 0, 0⟩
    m_raygenRecordsBuffer := ⟨[], 0⟩
    m_missRecordsBuffer := ⟨[], 0⟩
    m_hitgroupRecordsBuffer := ⟨[], 0⟩ }

/-- The expression `new Raycast()`. -/
def Raycast.new (init : MemberInits) : Raycast := { toRenderer := Renderer.new init }

/-- The expression `new AmbientOcclusion()`. -/
def AmbientOcclusion.new (init : MemberInits) : AmbientOcclusion :=
  { toRenderer := Renderer.new init }

/-- The expression `new DiffusePathTracer()`. -/
def DiffusePathTracer.new (init : MemberInits) : DiffusePathTracer :=
  { toRenderer := Renderer.new init, m_maxDepth := init.maxDepth, m_R := init.R }

/-- The expression `new SciVis()`. -/
def SciVis.new (init : MemberInits) : SciVis :=
  { toRenderer := Renderer.new init, m_lightFalloff := init.lightFalloff,
    m_aoSamples := init.aoSamples, m_aoColor := init.aoColor,
    m_aoIntensity := init.aoIntensity }

/-- The expression `new Debug()`. -/
def Debug.new (init : MemberInits) : Debug :=
  { toRenderer := Renderer.new init, m_method := init.method }

/-- The call `retval->setParam(name, value)` on a `Debug` object. -/
def Debug.setParam (d : Debug) (name : Str) (v : ParamValue) : Debug :=
  { d with params := visrtx.setParam d.params name v }

/-- The call `retval->setParam(name, value)` on a `SciVis` object. -/
def SciVis.setParam (o : SciVis) (name : Str) (v : ParamValue) : SciVis :=
  { o with params := visrtx.setParam o.params name v }

/-! ## The factory -/

/-- The function `make_renderer`.  The result is `none` only if the `splitString` loop
does not return. -/
def make_renderer (init : MemberInits) (subtype : Str) : Option RendererObject :=
  if subtype = "raycast".toList then
    some (.Raycast (Raycast.new init))
  else if subtype = "ao".toList then
    some (.AmbientOcclusion (AmbientOcclusion.new init))
  else if subtype = "diffuse_pathtracer".toList ∨ subtype = "dpt".toList then
    some (.DiffusePathTracer (DiffusePathTracer.new init))
  else if subtype = "scivis".toList ∨ subtype = "sv".toList ∨ subtype = "default".toList then
    some (.SciVis (SciVis.new init))
  else
    let retval := Debug.new init
    match splitString subtype "_".toList with
    | none => none
    | some names =>
      if h : names.length > 1 then
        some (.Debug (retval.setParam "method".toList (.string names[1])))
      else
        some (.Debug retval)

/-- The call `retval->setDeviceState(d)`: bind the object to the device state `d`. -/
def RendererObject.setDeviceState (o : RendererObject) (d : DeviceGlobalState) :
    RendererObject :=
  match o with
  | .Raycast o => .Raycast { o with m_state := some d }
  | .AmbientOcclusion o => .AmbientOcclusion { o with m_state := some d }
  | .DiffusePathTracer o => .DiffusePathTracer { o with m_state := some d }
  | .SciVis o => .SciVis { o with m_state := some d }
  | .Debug o => .Debug { o with m_state := some d }

/-- The function `Renderer::createInstance`.  The argument `overrideType` is what
`getenv("VISRTX_OVERRIDE_RENDERER")` returns: `none` (a null pointer) when the variable is
unset, the value of the variable otherwise.  The result is `none` only if
`make_renderer` does not return. -/
def Renderer.createInstance (init : MemberInits) (overrideType : Option Str)
    (subtype : Str) (d : DeviceGlobalState) : Option RendererObject :=
  let subtype := match overrideType with
    | some o => o
    | none => subtype
  match make_renderer init subtype with
  | none => none
  | some retval => some (retval.setDeviceState d)

/-! ## The count of live renderers -/

/-- The number of values of `size_t`. -/
def SIZE_RANGE : Nat := 2 ^ 64

/-- The static variable `s_numRenderers` of `Renderer.cpp`, a `size_t`; it starts at 0. -/
structure Statics where
  s_numRenderers : Nat
  deriving DecidableEq

/-- The state of the statics at program start: `s_numRenderers = 0`. -/
def Statics.initial : Statics := ⟨0⟩

/-- The function `Renderer::objectCount`. -/
def Renderer.objectCount (g : Statics) : Nat := g.s_numRenderers

/-- The effect on the statics of the constructor `Renderer::Renderer`:
`s_numRenderers++`, in `size_t` arithmetic. -/
def Renderer.constructor (g : Statics) : Statics :=
  ⟨(g.s_numRenderers + 1) % SIZE_RANGE⟩

/-- The effect on the statics of the destructor `Renderer::~Renderer`:
`s_numRenderers--`, in `size_t` arithmetic (the decrement of 0 wraps to the largest
value).  The call `optixPipelineDestroy(m_pipeline)` of the destructor concerns the device
only. -/
def Renderer.destructor (g : Statics) : Statics :=
  ⟨(g.s_numRenderers + SIZE_RANGE - 1) % SIZE_RANGE⟩

/-- A construction or a destruction of the renderer object with the given address. -/
inductive LifeOp
  | create (id : Nat)
  | destroy (id : Nat)
  deriving DecidableEq

/-- The statics together with the addresses of the renderer objects that are live. -/
structure Heap where
  statics : Statics
  live : List Nat
  deriving DecidableEq

/-- One construction or destruction.  It is `none` when it is not possible: a
construction at the address of a live object, or a destruction of an object that is not
live. -/
def Heap.step (h : Heap) : LifeOp → Option Heap
  | .create id =>
    if id ∈ h.live then none
    else some ⟨Renderer.constructor h.statics, id :: h.live⟩
  | .destroy id =>
    if id ∈ h.live then some ⟨Renderer.destructor h.statics, h.live.erase id⟩
    else none

/-- A sequence of constructions and destructions, from left to right; `none` when one of
them is not possible. -/
def Heap.run (h : Heap) : List LifeOp → Option Heap
  | [] => some h
  | op :: ops =>
    match h.step op with
    | none => none
    | some h' => h'.run ops

/-- Whether an operation is a construction. -/
def LifeOp.isCreate : LifeOp → Bool
  | .create _ => true
  | .destroy _ => false

/-- Whether an operation is a destruction. -/
def LifeOp.isDestroy : LifeOp → Bool
  | .create _ => false
  | .destroy _ => true

/-! ## Prefix test -/

/-- The algorithm `std::mismatch(first1, last1, first2).first`, as the number of leading
positions at which the range `[first1, last1)` and the range starting at `first2`
agree. -/
def mismatch : Str → Str → Nat
  | a :: as, b :: bs => if a = b then mismatch as bs + 1 else 0
  | _, _ => 0

/-- The function `longestBeginningMatch`. -/
def longestBeginningMatch (first second : Str) : Str :=
  let maxMatchLength := min first.length second.length
  first.take (mismatch (first.take maxMatchLength) second)

/-- The function `beginsWith`. -/
def beginsWith (inputString startsWithString : Str) : Bool :=
  let startingMatch := longestBeginningMatch inputString startsWithString
  startingMatch.length == startsWithString.length

/-! ## Commit -/

/-- The method `Renderer::commit`. -/
def Renderer.commit (r : Renderer) : Renderer :=
  { r with
    m_bgColor := getParam_vec4 r.params "backgroundColor".toList (Vec4.splat 1)
    m_spp := getParam_int r.params "pixelSamples".toList 1 }

/-- The method `DiffusePathTracer::commit`. -/
def DiffusePathTracer.commit (o : DiffusePathTracer) : DiffusePathTracer :=
  let r := o.toRenderer.commit
  { toRenderer := r
    m_maxDepth := std_clamp (getParam_int r.params "maxDepth".toList 5) 1 256
    m_R := getParam_float r.params "R".toList (1 / 2) }

/-- The method `SciVis::commit`. -/
def SciVis.commit (o : SciVis) : SciVis :=
  let r := o.toRenderer.commit
  { toRenderer := r
    m_lightFalloff := std_clamp (getParam_float r.params "lightFalloff".toList (1 / 4)) 0 1
    m_aoSamples := std_clamp (getParam_int r.params "ambientSamples".toList 0) 0 256
    m_aoColor := glm_clamp (getParam_vec3 r.params "ambientColor".toList (Vec3.splat 1))
      (Vec3.splat 0) (Vec3.splat 1)
    m_aoIntensity := getParam_float r.params "ambientIntensity".toList 1 }

/-- The function `methodFromString` of `Debug.cpp`. -/
def methodFromString (name : Str) : Method :=
  if name = "primID".toList then .PRIM_ID
  else if name = "geomID".toList then .GEOM_ID
  else if name = "instID".toList then .INST_ID
  else if name = "Ng".toList then .NG
  else if name = "Ng.abs".toList then .NG_ABS
  else if name = "Ns".toList then .NS
  else if name = "Ns.abs".toList then .NS_ABS
  else if name = "uvw".toList then .RAY_UVW
  else if name = "istri".toList then .IS_TRIANGLE
  else if name = "isvol".toList then .IS_VOLUME
  else .BACKFACE

/-- The method `Debug::commit`. -/
def Debug.commit (o : Debug) : Debug :=
  let r := o.toRenderer.commit
  { toRenderer := r
    m_method := methodFromString (getParam_string r.params "method".toList "primID".toList) }

/-! ## Frame data -/

/-- Modelled from the spec: the tagged union of per-variant parameter blocks of the frame
block (the struct is declared in `gpu/gpu_objects.h`, not among the sources).  Writing the
members of one variant's block makes that block the content of the union. -/
inductive RendererParametersGPUData
  | unset
  | debug (method : Int)
  | dpt (maxDepth : Int) (R : ℚ)
  | scivis (lightFalloff : ℚ) (aoSamples : Int) (aoColor : Vec3) (aoIntensity : ℚ)
  deriving DecidableEq

/-- Modelled from the spec: the renderer part of the frame block: background colour and the
union of per-variant parameter blocks. -/
structure RendererGPUData where
  bgColor : Vec4
  params : RendererParametersGPUData
  deriving DecidableEq

/-- Modelled from the spec: the flat per-frame structure; `rest` stands for all its fields
outside the renderer part. -/
structure FrameGPUData (β : Type) where
  renderer : RendererGPUData
  rest : β

/-- The method `Renderer::populateFrameData`. -/
def Renderer.populateFrameData {β : Type} (r : Renderer) (fd : FrameGPUData β) :
    FrameGPUData β :=
  { fd with renderer := { fd.renderer with bgColor := r.m_bgColor } }

/-- The method `DiffusePathTracer::populateFrameData`. -/
def DiffusePathTracer.populateFrameData {β : Type} (o : DiffusePathTracer)
    (fd : FrameGPUData β) : FrameGPUData β :=
  let fd := o.toRenderer.populateFrameData fd
  { fd with renderer := { fd.renderer with params := .dpt o.m_maxDepth o.m_R } }

/-- The method `SciVis::populateFrameData`. -/
def SciVis.populateFrameData {β : Type} (o : SciVis) (fd : FrameGPUData β) :
    FrameGPUData β :=
  let fd := o.toRenderer.populateFrameData fd
  { fd with renderer := { fd.renderer with
      params := .scivis o.m_lightFalloff o.m_aoSamples o.m_aoColor o.m_aoIntensity } }

/-- The method `Debug::populateFrameData`.  The integer value of each enumerator of
`Debug::Method` is fixed by the header `Debug.h`, which is not among the sources, so the
conversion `static_cast<int>` is the parameter `toInt`. -/
def Debug.populateFrameData {β : Type} (toInt : Method → Int) (o : Debug)
    (fd : FrameGPUData β) : FrameGPUData β :=
  let fd := o.toRenderer.populateFrameData fd
  { fd with renderer := { fd.renderer with params := .debug (toInt o.m_method) } }

/-! ## Parameter introspection -/

/-- The struct `ANARIParameter`: a name (`none` is `nullptr`) and a type. -/
structure ANARIParameter where
  name : Option Str
  type : ANARIDataType
  deriving DecidableEq

/-- The local `emptyParam` of `Renderer::getParameters`, the end marker of each list. -/
def emptyParam : ANARIParameter := ⟨none, ANARI_UNKNOWN⟩

/-- The function `Renderer::getParameters`; `none` is the `nullptr` result. -/
def Renderer.getParameters (subtype : Str) : Option (List ANARIParameter) :=
  if subtype = "raycast".toList then
    some [⟨some "backgroundColor".toList, ANARI_FLOAT32_VEC4⟩,
      ⟨some "pixelSamples".toList, ANARI_INT32⟩,
      emptyParam]
  else if subtype = "ao".toList then
    some [⟨some "backgroundColor".toList, ANARI_FLOAT32_VEC4⟩,
      ⟨some "pixelSamples".toList, ANARI_INT32⟩,
      ⟨some "aoSamples".toList, ANARI_INT32⟩,
      emptyParam]
  else if subtype = "diffuse_pathtracer".toList ∨ subtype = "dpt".toList then
    some [⟨some "backgroundColor".toList, ANARI_FLOAT32_VEC4⟩,
      ⟨some "pixelSamples".toList, ANARI_INT32⟩,
      ⟨some "maxDepth".toList, ANARI_INT32⟩,
      ⟨some "R".toList, ANARI_FLOAT32⟩,
      emptyParam]
  else if subtype = "scivis".toList ∨ subtype = "sv".toList ∨ subtype = "default".toList then
    some [⟨some "backgroundColor".toList, ANARI_FLOAT32_VEC4⟩,
      ⟨some "pixelSamples".toList, ANARI_INT32⟩,
      ⟨some "lightFalloff".toList, ANARI_FLOAT32⟩,
      ⟨some "ambientSamples".toList, ANARI_INT32⟩,
      ⟨some "ambientIntensity".toList, ANARI_FLOAT32⟩,
      ⟨some "ambientColor".toList, ANARI_FLOAT32_VEC3⟩,
      emptyParam]
  else if beginsWith subtype "debug".toList then
    some [⟨some "backgroundColor".toList, ANARI_FLOAT32_VEC4⟩,
      ⟨some "pixelSamples".toList, ANARI_INT32⟩,
      ⟨some "method".toList, ANARI_STRING⟩,
      emptyParam]
  else
    none

/-- A static parameter descriptor, as the constructor calls `ParameterInfo(required,
description, default)` and `ParameterInfo(required, description, default, min, max)` build
it: required flag, description, default value and optional minimum and maximum. -/
structure ParameterInfo where
  required : Bool
  description : Str
  defaultValue : ParamValue
  minValue : Option ParamValue
  maxValue : Option ParamValue
  deriving DecidableEq

/-- The type of the lookup `ParameterInfo::fromString(infoName, infoType)`.  The lookup
is written in `ParameterInfo.h`, not among the sources; it is a parameter of the
`getParameterInfo` functions.  The result `none` is `nullptr`. -/
abbrev FromString (ι : Type) := ParameterInfo → Str → ANARIDataType → Option ι

/-- The function `DiffusePathTracer::getParameterInfo`. -/
def DiffusePathTracer.getParameterInfo {ι : Type} (fromString : FromString ι)
    (paramName : Str) (paramType : ANARIDataType) (infoName : Str)
    (infoType : ANARIDataType) : Option ι :=
  if paramName = "maxDepth".toList ∧ paramType = ANARI_INT32 then
    fromString ⟨false, "maximum per-pixel path depth".toList, .int32 5,
      some (.int32 1), some (.int32 256)⟩ infoName infoType
  else if paramName = "R".toList ∧ paramType = ANARI_FLOAT32 then
    fromString ⟨false, "per-bounce energy falloff factor".toList, .float32 (1 / 2),
      some (.float32 0), some (.float32 1)⟩ infoName infoType
  else
    none

/-- The function `SciVis::getParameterInfo`. -/
def SciVis.getParameterInfo {ι : Type} (fromString : FromString ι)
    (paramName : Str) (paramType : ANARIDataType) (infoName : Str)
    (infoType : ANARIDataType) : Option ι :=
  if paramName = "lightFalloff".toList ∧ paramType = ANARI_FLOAT32 then
    fromString ⟨false, "energy falloff when evaluating lights".toList, .float32 (1 / 4),
      some (.float32 0), some (.float32 1)⟩ infoName infoType
  else if paramName = "ambientSamples".toList ∧ paramType = ANARI_INT32 then
    fromString ⟨false, "number of ambient occlusion samples each frame".toList, .int32 0,
      some (.int32 0), some (.int32 256)⟩ infoName infoType
  else if paramName = "ambientIntensity".toList ∧ paramType = ANARI_FLOAT32 then
    fromString ⟨false, "ambient lighting intensity".toList, .float32 1, none, none⟩
      infoName infoType
  else if paramName = "ambientColor".toList ∧ paramType = ANARI_FLOAT32_VEC3 then
    fromString ⟨false, "ambient lighting color".toList, .vec3 (Vec3.splat 1),
      some (.vec3 (Vec3.splat 0)), some (.vec3 (Vec3.splat 1))⟩ infoName infoType
  else
    none

/-- The function `Renderer::getParameterInfo`.  In its last branch the per-class functions
are called as expression statements: their results are dropped and control reaches the
final `return nullptr`.  `aoInfo` stands for `AmbientOcclusion::getParameterInfo`, whose
source file is not among the sources. -/
def Renderer.getParameterInfo {ι : Type} (fromString : FromString ι)
    (aoInfo : Str → ANARIDataType → Str → ANARIDataType → Option ι)
    (subtype paramName : Str) (paramType : ANARIDataType) (infoName : Str)
    (infoType : ANARIDataType) : Option ι :=
  if paramName = "backgroundColor".toList ∧ paramType = ANARI_FLOAT32 then
    fromString ⟨false, "background color".toList, .vec4 (Vec4.splat 1), none, none⟩
      infoName infoType
  else if paramName = "pixelSamples".toList ∧ paramType = ANARI_INT32 then
    fromString ⟨false, "samples per-pixel each frame".toList, .int32 1, none, none⟩
      infoName infoType
  else
    let _dropped : Option ι :=
      if subtype = "ao".toList then
        aoInfo paramName paramType infoName infoType
      else if subtype = "diffuse_pathtracer".toList ∨ subtype = "dpt".toList then
        DiffusePathTracer.getParameterInfo fromString paramName paramType infoName infoType
      else if subtype = "scivis".toList ∨ subtype = "sv".toList
          ∨ subtype = "default".toList then
        SciVis.getParameterInfo fromString paramName paramType infoName infoType
      else if beginsWith subtype "debug".toList then
        none
      else
        none
    none

/-! ## Pipeline assembly -/

/-- Modelled from the spec: `reportMessage(severity, format, ...)` puts one message of the
given severity on the message channel (the method is declared in `Object.h`, not among
the sources).  The formatted arguments are not recorded. -/
def reportMessage (severity : ANARIStatusSeverity) (format : Str) (log : List Event) :
    List Event :=
  log ++ [.message severity format]

/-- The macro `OPTIX_CHECK(call)`, applied to the result `res` of the call: on a result
other than `OPTIX_SUCCESS` it reports a message of fatal severity; it does nothing else. -/
def OPTIX_CHECK (res : OptixResult) (log : List Event) : List Event :=
  if res ≠ OPTIX_SUCCESS then reportMessage ANARI_SEVERITY_FATAL_ERROR "%s".toList log
  else log

/-- The call `v.resize(n)` on a vector of program groups: cut to `n` entries, or filled up
with null handles. -/
def resize (v : List OptixProgramGroup) (n : Nat) : List OptixProgramGroup :=
  v.take n ++ List.replicate (n - v.length) none

/-- The statements that each of the three program-group blocks of `initOptixPipeline`
runs for one descriptor: `OPTIX_CHECK(optixProgramGroupCreate(...))` followed by the
report of the build log at debug severity when `sizeof_log > 1`.  The result is the handle
left in the out-parameter and the extended event log. -/
def createProgramGroup (ox : Optix) (ctx : OptixDeviceContext)
    (pgDesc : OptixProgramGroupDesc) (logFormat : Str) (log : List Event) :
    OptixProgramGroup × List Event :=
  let out := ox.optixProgramGroupCreate log ctx pgDesc
  let log := OPTIX_CHECK out.1 (log ++ [.programGroupCreate pgDesc out.1 out.2.1])
  let log := if out.2.2 > 1 then reportMessage ANARI_SEVERITY_DEBUG logFormat log else log
  (out.2.1, log)

/-- The any-hit entry point of a program-group descriptor: `none` when the descriptor has
no any-hit stage. -/
def OptixProgramGroupDesc.anyHitStage : OptixProgramGroupDesc → Option Str
  | .hitgroup _ _ _ entryFunctionNameAH _ _ => entryFunctionNameAH
  | _ => none

/-- Whether a program-group descriptor is of the raygen kind. -/
def OptixProgramGroupDesc.isRaygen : OptixProgramGroupDesc → Bool
  | .raygen _ _ => true
  | _ => false

/-- The closest-hit entry point of a hit-group descriptor. -/
def OptixProgramGroupDesc.closestHitStage : OptixProgramGroupDesc → Option Str
  | .hitgroup _ entryFunctionNameCH _ _ _ _ => some entryFunctionNameCH
  | _ => none

/-- The descriptor that the "Raygen program" block fills in. -/
def raygenDesc (om : OptixModule) : OptixProgramGroupDesc :=
  .raygen om "__raygen__".toList

/-- The descriptor that the "Miss program" block fills in for the miss name `mn`. -/
def missDesc (om : OptixModule) (mn : Str) : OptixProgramGroupDesc :=
  .miss om mn

/-- The descriptor that the "Hit program" block fills in for the names `hgn`: the any-hit
members are set only when the any-hit name is not empty. -/
def hitgroupDesc (state : DeviceGlobalState) (om : OptixModule)
    (hgn : HitgroupFunctionNames) : OptixProgramGroupDesc :=
  .hitgroup om hgn.closestHit
    (if hgn.anyHit ≠ [] then om else none)
    (if hgn.anyHit ≠ [] then some hgn.anyHit else none)
    state.intersectionModules.customIntersectors "__intersection__".toList

/-- The block "Raygen program" of `initOptixPipeline`. -/
def raygenProgram (ox : Optix) (state : DeviceGlobalState) (om : OptixModule)
    (s : Renderer × List Event) : Renderer × List Event :=
  let pgs := resize s.1.m_raygenPGs 1
  let out := createProgramGroup ox state.optixContext (raygenDesc om)
    "PG Raygen Log:\n%s\n".toList s.2
  ({ s.1 with m_raygenPGs := pgs.set 0 out.1 }, out.2)

/-- The `for` loop of the block "Miss program": for `i` from `0` up to the size of
`m_missPGs`, create the group for `missNames[i]` into `m_missPGs[i]`. -/
def missLoop (ox : Optix) (state : DeviceGlobalState) (om : OptixModule)
    (missNames : List Str) (pgs : List OptixProgramGroup) (log : List Event) :
    List OptixProgramGroup × List Event :=
  (List.range pgs.length).foldl
    (fun s i =>
      let mn := missNames.getD i []
      let out := createProgramGroup ox state.optixContext (missDesc om mn)
        "PG Miss Log:\n%s".toList s.2
      (s.1.set i out.1, out.2))
    (pgs, log)

/-- The block "Miss program" of `initOptixPipeline`. -/
def missProgram (ox : Optix) (state : DeviceGlobalState) (om : OptixModule)
    (missNames : List Str) (s : Renderer × List Event) : Renderer × List Event :=
  let out := missLoop ox state om missNames (resize s.1.m_missPGs missNames.length) s.2
  ({ s.1 with m_missPGs := out.1 }, out.2)

/-- The `for` loop of the block "Hit program": for `i` from `0` up to the size of
`m_hitgroupPGs`, create the group for `hitgroupNames[i]` into `m_hitgroupPGs[i]`. -/
def hitgroupLoop (ox : Optix) (state : DeviceGlobalState) (om : OptixModule)
    (hitgroupNames : List HitgroupFunctionNames) (pgs : List OptixProgramGroup)
    (log : List Event) : List OptixProgramGroup × List Event :=
  (List.range pgs.length).foldl
    (fun s i =>
      let hgn := hitgroupNames.getD i ⟨[], []⟩
      let out := createProgramGroup ox state.optixContext (hitgroupDesc state om hgn)
        "PG Hitgroup Log:\n%s".toList s.2
      (s.1.set i out.1, out.2))
    (pgs, log)

/-- The block "Hit program" of `initOptixPipeline`. -/
def hitProgram (ox : Optix) (state : DeviceGlobalState) (om : OptixModule)
    (hitgroupNames : List HitgroupFunctionNames) (s : Renderer × List Event) :
    Renderer × List Event :=
  let out := hitgroupLoop ox state om hitgroupNames
    (resize s.1.m_hitgroupPGs hitgroupNames.length) s.2
  ({ s.1 with m_hitgroupPGs := out.1 }, out.2)

/-- The compile options that the block "Pipeline" fills in. -/
def pipelineCompileOptions : OptixPipelineCompileOptions :=
  { traversableGraphFlags := .OPTIX_TRAVERSABLE_GRAPH_FLAG_ALLOW_SINGLE_LEVEL_INSTANCING
    usesMotionBlur := false
    numPayloadValues := PAYLOAD_VALUES
    numAttributeValues := ATTRIBUTE_VALUES
    exceptionFlagsNone := true
    pipelineLaunchParamsVariableName := "frameData".toList }

/-- The link options that the block "Pipeline" fills in. -/
def pipelineLinkOptions : OptixPipelineLinkOptions :=
  { maxTraceDepth := 2 }

/-- The block "Pipeline" of `initOptixPipeline`. -/
def pipelineBlock (ox : Optix) (state : DeviceGlobalState) (s : Renderer × List Event) :
    Renderer × List Event :=
  let programGroups := s.1.m_raygenPGs ++ s.1.m_missPGs ++ s.1.m_hitgroupPGs
  let out := ox.optixPipelineCreate s.2 state.optixContext pipelineCompileOptions
    pipelineLinkOptions programGroups s.1.m_pipeline
  let log := OPTIX_CHECK out.1
    (s.2 ++ [.pipelineCreate pipelineCompileOptions pipelineLinkOptions programGroups out.1
      out.2.1])
  let log := if out.2.2 > 1 then
      reportMessage ANARI_SEVERITY_DEBUG "Pipeline Create Log:\n%s".toList log
    else log
  ({ s.1 with m_pipeline := out.2.1 }, log)

/-- One of the three record loops of the block "SBT": for each program group, in order,
`OPTIX_CHECK(optixSbtRecordPackHeader(pg, &rec))` and `records.push_back(rec)`. -/
def packRecords (ox : Optix) :
    List OptixProgramGroup → List SBTRecord → List Event → List SBTRecord × List Event
  | [], records, log => (records, log)
  | pg :: pgs, records, log =>
    let out := ox.optixSbtRecordPackHeader log pg
    let log := OPTIX_CHECK out.1 (log ++ [.sbtRecordPackHeader pg out.1 out.2])
    packRecords ox pgs (records ++ [⟨out.2⟩]) log

/-- Modelled from the spec: `buffer.upload(records)` copies the ordered records to
device-resident memory; afterwards the buffer holds them at the address the device
gives. -/
def DeviceBuffer.upload (ox : Optix) (records : List SBTRecord) (log : List Event) :
    DeviceBuffer × List Event :=
  (⟨records, ox.upload log records⟩, log ++ [.upload records (ox.upload log records)])

/-- The conversion of a `size_t` to `unsigned int`. -/
def toUnsignedInt (n : Nat) : Nat := n % 2 ^ 32

/-- One of the three parts of the block "SBT": the record loop over the program groups
`pgs`, then the upload of the records it built into the part's device buffer. -/
def packAndUpload (ox : Optix) (pgs : List OptixProgramGroup) (log : List Event) :
    DeviceBuffer × List Event :=
  let records := packRecords ox pgs [] log
  DeviceBuffer.upload ox records.1 records.2

/-- The block "SBT" of `initOptixPipeline`. -/
def sbtBlock (ox : Optix) (s : Renderer × List Event) : Renderer × List Event :=
  let raygen := packAndUpload ox s.1.m_raygenPGs s.2
  let miss := packAndUpload ox s.1.m_missPGs raygen.2
  let hitgroup := packAndUpload ox s.1.m_hitgroupPGs miss.2
  ({ s.1 with
      m_raygenRecordsBuffer := raygen.1
      m_missRecordsBuffer := miss.1
      m_hitgroupRecordsBuffer := hitgroup.1
      m_sbt :=
        { s.1.m_sbt with
          raygenRecord := raygen.1.ptr
          missRecordBase := miss.1.ptr
          missRecordStrideInBytes := toUnsignedInt sizeof_SBTRecord
          missRecordCount := toUnsignedInt miss.1.contents.length
          hitgroupRecordBase := hitgroup.1.ptr
          hitgroupRecordStrideInBytes := toUnsignedInt sizeof_SBTRecord
          hitgroupRecordCount := toUnsignedInt hitgroup.1.contents.length } },
    hitgroup.2)

/-- The method `Renderer::initOptixPipeline`, for a renderer bound to the device state
`state`.  The results of the virtual calls `optixModule()`, `missSbtNames()` and
`hitgroupSbtNames()` are the arguments `om`, `missNames` and `hitgroupNames`.  The renderer
is paired with the log of what has happened on the device so far. -/
def initOptixPipeline (ox : Optix) (state : DeviceGlobalState) (om : OptixModule)
    (missNames : List Str) (hitgroupNames : List HitgroupFunctionNames)
    (s : Renderer × List Event) : Renderer × List Event :=
  sbtBlock ox (pipelineBlock ox state (hitProgram ox state om hitgroupNames
    (missProgram ox state om missNames (raygenProgram ox state om s))))

/-- The method `Renderer::sbt`: build the pipeline if the pipeline handle is null, then
return the binding table.  The result is the table returned, with the renderer and the
device log after the call. -/
def Renderer.sbt (ox : Optix) (state : DeviceGlobalState) (om : OptixModule)
    (missNames : List Str) (hitgroupNames : List HitgroupFunctionNames)
    (s : Renderer × List Event) : OptixShaderBindingTable × (Renderer × List Event) :=
  let s' := if s.1.m_pipeline = none then
      initOptixPipeline ox state om missNames hitgroupNames s
    else s
  (s'.1.m_sbt, s')

/-- A call made on a renderer after its construction: `setParam`, `commit` or `sbt`. -/
inductive RendererCall
  | setParam (name : Str) (v : ParamValue)
  | commit
  | sbt

/-- The effect of one call on the renderer and the device log. -/
def Renderer.call (ox : Optix) (state : DeviceGlobalState) (om : OptixModule)
    (missNames : List Str) (hitgroupNames : List HitgroupFunctionNames)
    (s : Renderer × List Event) : RendererCall → Renderer × List Event
  | .setParam name v => ({ s.1 with params := visrtx.setParam s.1.params name v }, s.2)
  | .commit => (s.1.commit, s.2)
  | .sbt => (Renderer.sbt ox state om missNames hitgroupNames s).2

/-- The effect of a sequence of calls, from left to right. -/
def Renderer.calls (ox : Optix) (state : DeviceGlobalState) (om : OptixModule)
    (missNames : List Str) (hitgroupNames : List HitgroupFunctionNames)
    (s : Renderer × List Event) (cs : List RendererCall) : Renderer × List Event :=
  cs.foldl (Renderer.call ox state om missNames hitgroupNames) s

/-- The members of a renderer that `initOptixPipeline` writes: program groups, pipeline
handle, binding table and record buffers. -/
def Renderer.pipelineMembers (r : Renderer) :
    List OptixProgramGroup × List OptixProgramGroup × List OptixProgramGroup × OptixPipeline
      × OptixShaderBindingTable × DeviceBuffer × DeviceBuffer × DeviceBuffer :=
  (r.m_raygenPGs, r.m_missPGs, r.m_hitgroupPGs, r.m_pipeline, r.m_sbt,
    r.m_raygenRecordsBuffer, r.m_missRecordsBuffer, r.m_hitgroupRecordsBuffer)

/-- The vector `g_scivisHitNames` of `SciVis.cpp`. -/
def g_scivisHitNames : List HitgroupFunctionNames :=
  [⟨"__closesthit__primary".toList, "".toList⟩,
    ⟨"__closesthit__shadow".toList, "__anyhit__shadow".toList⟩]

/-- The vector `g_scivisMissNames` of `SciVis.cpp`. -/
def g_scivisMissNames : List Str := ["__miss__".toList, "__miss__".toList]

/-- The method `SciVis::optixModule`. -/
def SciVis.optixModule (state : DeviceGlobalState) : OptixModule :=
  state.rendererModules.scivis

/-- The method `SciVis::hitgroupSbtNames`. -/
def SciVis.hitgroupSbtNames : List HitgroupFunctionNames := g_scivisHitNames

/-- The method `SciVis::missSbtNames`. -/
def SciVis.missSbtNames : List Str := g_scivisMissNames

/-- The method `initOptixPipeline` on a `SciVis` object: the base-class method with the
overrides of `SciVis` for the virtual calls. -/
def SciVis.initOptixPipeline (ox : Optix) (state : DeviceGlobalState)
    (s : SciVis × List Event) : SciVis × List Event :=
  let out := visrtx.initOptixPipeline ox state (SciVis.optixModule state)
    SciVis.missSbtNames SciVis.hitgroupSbtNames (s.1.toRenderer, s.2)
  ({ s.1 with toRenderer := out.1 }, out.2)

/-- The vector `g_debugHitNames` of `Debug.cpp`. -/
def g_debugHitNames : List HitgroupFunctionNames :=
  [⟨"__closesthit__surface".toList, "".toList⟩, ⟨"__closesthit__volume".toList, "".toList⟩]

/-- The vector `g_debugMissNames` of `Debug.cpp`. -/
def g_debugMissNames : List Str := ["__miss__".toList, "__miss__".toList]

/-! ## Specification-level notions used by the theorems -/

/-- The maximal runs of characters of `input` that contain no character of `delim`, in
order: the pieces between delimiters, without the empty ones. -/
def tokensOf (delim input : Str) : List Str :=
  (input.splitOnP (fun c => delim.contains c)).filter (fun t => !t.isEmpty)

/-- The program groups created by the events of a log, in order: each descriptor passed to
`optixProgramGroupCreate` with the handle the call left. -/
def createdGroups (l : List Event) : List (OptixProgramGroupDesc × OptixProgramGroup) :=
  l.filterMap (fun e =>
    match e with
    | .programGroupCreate d _ pg => some (d, pg)
    | _ => none)

/-- The pipeline links attempted by the events of a log, in order: the program groups
passed to `optixPipelineCreate` with the pipeline handle the call left. -/
def linkedPipelines (l : List Event) : List (List OptixProgramGroup × OptixPipeline) :=
  l.filterMap (fun e =>
    match e with
    | .pipelineCreate _ _ pgs _ pl => some (pgs, pl)
    | _ => none)

/-- The record headers packed by the events of a log, in order: each program group passed
to `optixSbtRecordPackHeader` with the record the call left. -/
def packedRecords (l : List Event) : List (OptixProgramGroup × SBTRecord) :=
  l.filterMap (fun e =>
    match e with
    | .sbtRecordPackHeader pg _ h => some (pg, ⟨h⟩)
    | _ => none)

/-- The record buffers uploaded by the events of a log, in order. -/
def uploadedBuffers (l : List Event) : List DeviceBuffer :=
  l.filterMap (fun e =>
    match e with
    | .upload records ptr => some ⟨records, ptr⟩
    | _ => none)

/-- Whether an event is a message of fatal severity. -/
def Event.isFatal : Event → Bool
  | .message .ANARI_SEVERITY_FATAL_ERROR _ => true
  | _ => false

/-- Whether an event is an OptiX call that returned a result other than
`OPTIX_SUCCESS`. -/
def Event.isFailedCall : Event → Bool
  | .programGroupCreate _ res _ => res != OPTIX_SUCCESS
  | .pipelineCreate _ _ _ res _ => res != OPTIX_SUCCESS
  | .sbtRecordPackHeader _ res _ => res != OPTIX_SUCCESS
  | _ => false

/-- A step took the log from `log` to `log'` by appending events: among them exactly the
program-group creations `c`, the pipeline links `k`, the header packs `p` and the uploads
`u`, each in order, and as many fatal messages as failed OptiX calls. -/
def Did (log log' : List Event) (c : List (OptixProgramGroupDesc × OptixProgramGroup))
    (k : List (List OptixProgramGroup × OptixPipeline))
    (p : List (OptixProgramGroup × SBTRecord)) (u : List DeviceBuffer) : Prop :=
  ∃ new, log' = log ++ new ∧ createdGroups new = c ∧ linkedPipelines new = k ∧
    packedRecords new = p ∧ uploadedBuffers new = u ∧
    new.countP Event.isFatal = new.countP Event.isFailedCall

/-- The events that a step added to the log `log`, given the log `log'` after it. -/
def eventsSince (log log' : List Event) : List Event := log'.drop log.length

/-- The longest common prefix of two strings: their characters up to the first position
at which they differ or one of them ends. -/
def commonPrefix : Str → Str → Str
  | a :: as, b :: bs => if a = b then a :: commonPrefix as bs else []
  | _, _ => []

/-- The list `tokens` holds, in order, the maximal runs of `input` that are free of
delimiters (`p` tells the delimiters): `input` is a run of delimiters, then the first
token, which is not empty and free of delimiters, then a remainder that is empty or
starts with a delimiter and holds the other tokens in the same way. -/
inductive IsRuns (p : Char → Bool) : Str → List Str → Prop
  | done (us : Str) (hus : ∀ c ∈ us, p c = true) : IsRuns p us []
  | run (us t rest : Str) (ts : List Str) (hus : ∀ c ∈ us, p c = true) (ht : t ≠ [])
      (hfree : ∀ c ∈ t, p c = false)
      (hrest : rest = [] ∨ ∃ c r, rest = c :: r ∧ p c = true)
      (h : IsRuns p rest ts) : IsRuns p (us ++ t ++ rest) (t :: ts)

/-- The substring of `s` that follows its first underscore (empty when there is none). -/
def afterFirstUnderscore (s : Str) : Str :=
  (s.dropWhile (fun c => c != '_')).drop 1

/-! ## Objects and tables used in the statements -/

/-- The names that `make_renderer` matches exactly. -/
def recognisedNames : List Str :=
  ["raycast".toList, "ao".toList, "diffuse_pathtracer".toList, "dpt".toList,
    "scivis".toList, "sv".toList, "default".toList]

/-- An arbitrary choice of member initialisers, for evaluating the factory on examples. -/
def MemberInits.sample : MemberInits :=
  ⟨⟨0, 0, 0, 0⟩, 0, 0, 0, 0, 0, ⟨0, 0, 0⟩, 0, .BACKFACE⟩

/-- A device state for examples: context 1, renderer modules 11 to 15, intersection
module 20. -/
def DeviceGlobalState.sample : DeviceGlobalState :=
  { optixContext := some 1
    rendererModules := ⟨some 11, some 12, some 13, some 14, some 15⟩
    intersectionModules := ⟨some 20⟩ }

/-- A device on which every call succeeds: each created handle is numbered by the number
of events before the call, a header holds the number of its program group, and buffers
are placed at increasing addresses. -/
def Optix.succeeding : Optix :=
  { optixProgramGroupCreate := fun hist _ _ => (OPTIX_SUCCESS, some (hist.length + 1), 0)
    optixPipelineCreate := fun hist _ _ _ _ _ => (OPTIX_SUCCESS, some (hist.length + 1), 0)
    optixSbtRecordPackHeader := fun _ pg => (OPTIX_SUCCESS, [pg.getD 0])
    upload := fun hist _ => 4096 + hist.length }

/-- A device like `Optix.succeeding`, except that packing the header of the program group
with handle 1 (the first group created, the raygen group) fails with error code 7005. -/
def Optix.packFails : Optix :=
  { Optix.succeeding with
    optixSbtRecordPackHeader := fun _ pg =>
      if pg = some 1 then (OPTIX_ERROR 7005, []) else (OPTIX_SUCCESS, [pg.getD 0]) }

/-- The ten debug method names with the enumerator each one stands for. -/
def debugMethodTable : List (Str × Method) :=
  [("primID".toList, .PRIM_ID), ("geomID".toList, .GEOM_ID), ("instID".toList, .INST_ID),
    ("Ng".toList, .NG), ("Ng.abs".toList, .NG_ABS), ("Ns".toList, .NS),
    ("Ns.abs".toList, .NS_ABS), ("uvw".toList, .RAY_UVW), ("istri".toList, .IS_TRIANGLE),
    ("isvol".toList, .IS_VOLUME)]

/-- A path tracer with the single pending parameter `maxDepth = d`. -/
def DiffusePathTracer.withMaxDepth (d : Int) : DiffusePathTracer :=
  { DiffusePathTracer.new MemberInits.sample with
    params := visrtx.setParam [] "maxDepth".toList (.int32 d) }

/-- A scivis renderer with the single pending parameter `ambientSamples = a`. -/
def SciVis.withAmbientSamples (a : Int) : SciVis :=
  { SciVis.new MemberInits.sample with
    params := visrtx.setParam [] "ambientSamples".toList (.int32 a) }

/-- A path tracer with the single pending parameter `R = x`. -/
def DiffusePathTracer.withR (init : MemberInits) (x : ℚ) : DiffusePathTracer :=
  { DiffusePathTracer.new init with params := visrtx.setParam [] "R".toList (.float32 x) }

/-- A scivis renderer as the factory builds it for `"scivis"`, with the two pending
parameters of the scenario. -/
def SciVis.scenario : SciVis :=
  ((SciVis.new MemberInits.sample).setParam "ambientSamples".toList (.int32 300)).setParam
    "lightFalloff".toList (.float32 (-1))

/-- A lookup for examples: it answers every query with the whole descriptor, so its
result is never the null result. -/
def FromString.whole : FromString ParameterInfo := fun p _ _ => some p

/-- Whether a renderer object is of class `Debug`. -/
def RendererObject.isDebug : RendererObject → Bool
  | .Debug _ => true
  | _ => false

/-- A frame block for examples: black background, nothing in the parameter union, and a
single number standing for the rest of the block. -/
def FrameGPUData.sample : FrameGPUData Nat := ⟨⟨⟨0, 0, 0, 0⟩, .unset⟩, 42⟩

/-! ## Lemmas on `splitString` -/

theorem findIdx?_split (p : Char → Bool) (l : Str) :
    (l.findIdx? p = none ∧ ∀ x ∈ l, p x = false) ∨
    ∃ pre a tl, l = pre ++ a :: tl ∧ (∀ x ∈ pre, p x = false) ∧ p a = true ∧
      l.findIdx? p = some pre.length := by
  induction l with
  | nil => left; simp
  | cons c cs ih =>
    by_cases hc : p c = true
    · right
      exact ⟨[], c, cs, rfl, by simp, hc, by simp [List.findIdx?_cons, hc]⟩
    · have hc' : p c = false := by simpa using hc
      rcases ih with ⟨h1, h2⟩ | ⟨pre, a, tl, h1, h2, h3, h4⟩
      · left
        refine ⟨?_, ?_⟩
        · simp [List.findIdx?_cons, hc', List.findIdx?_succ, h1]
        · intro x hx
          rcases List.mem_cons.mp hx with rfl | hx
          · exact hc'
          · exact h2 x hx
      · right
        refine ⟨c :: pre, a, tl, by simp [h1], ?_, h3, ?_⟩
        · intro x hx
          rcases List.mem_cons.mp hx with rfl | hx
          · exact hc'
          · exact h2 x hx
        · simp [List.findIdx?_cons, hc', List.findIdx?_succ, h4]

theorem filter_splitOnP_cons_true (p : Char → Bool) (a : Char) (l : Str) (ha : p a = true) :
    ((a :: l).splitOnP p).filter (fun t => !t.isEmpty)
      = (l.splitOnP p).filter (fun t => !t.isEmpty) := by
  simp [List.splitOnP_cons, ha]

theorem filter_splitOnP_single (p : Char → Bool) (t : Str) (ht : t ≠ [])
    (hfree : ∀ x ∈ t, p x = false) :
    (t.splitOnP p).filter (fun t => !t.isEmpty) = [t] := by
  have hnot : ∀ x ∈ t, ¬ p x = true := fun x hx => by simp [hfree x hx]
  have h := List.splitOnP_eq_single p t hnot
  rw [h]
  cases t with
  | nil => exact absurd rfl ht
  | cons c cs => simp

theorem filter_splitOnP_first (p : Char → Bool) (t : Str) (sep : Char) (rest : Str)
    (ht : t ≠ []) (hfree : ∀ x ∈ t, p x = false) (hsep : p sep = true) :
    ((t ++ sep :: rest).splitOnP p).filter (fun t => !t.isEmpty)
      = t :: (rest.splitOnP p).filter (fun t => !t.isEmpty) := by
  have hnot : ∀ x ∈ t, ¬ p x = true := fun x hx => by simp [hfree x hx]
  have h := List.splitOnP_first p t hnot sep hsep rest
  rw [h]
  cases t with
  | nil => exact absurd rfl ht
  | cons c cs => simp

theorem tokensOf_nil (delim : Str) : tokensOf delim [] = [] := by
  simp [tokensOf, List.splitOnP_nil]

theorem tokensOf_cons_delim (delim : Str) (a : Char) (l : Str)
    (ha : delim.contains a = true) : tokensOf delim (a :: l) = tokensOf delim l :=
  filter_splitOnP_cons_true (fun c => delim.contains c) a l ha

theorem tokensOf_append_delims (delim : Str) (us l : Str)
    (hus : ∀ x ∈ us, delim.contains x = true) :
    tokensOf delim (us ++ l) = tokensOf delim l := by
  induction us with
  | nil => rfl
  | cons u us ih =>
    rw [List.cons_append, tokensOf_cons_delim delim u _ (hus u (List.mem_cons_self _ _))]
    exact ih (fun x hx => hus x (List.mem_cons_of_mem _ hx))

theorem tokensOf_single (delim : Str) (t : Str) (ht : t ≠ [])
    (hfree : ∀ x ∈ t, delim.contains x = false) : tokensOf delim t = [t] :=
  filter_splitOnP_single (fun c => delim.contains c) t ht hfree

theorem tokensOf_first (delim : Str) (t : Str) (sep : Char) (rest : Str) (ht : t ≠ [])
    (hfree : ∀ x ∈ t, delim.contains x = false) (hsep : delim.contains sep = true) :
    tokensOf delim (t ++ sep :: rest) = t :: tokensOf delim rest :=
  filter_splitOnP_first (fun c => delim.contains c) t sep rest ht hfree hsep

theorem splitLoop_npos (input delim : Str) (fuel : Nat) (acc : List Str) :
    splitLoop input delim (fuel + 1) none acc = some acc := by
  simp only [splitLoop, Option.none_bind]

/-- The loop of `splitString` returns, within one unit of fuel per remaining character plus
one, the tokens built so far followed by the delimiter-free runs of the rest of the
input. -/
theorem splitLoop_eq (input delim : Str) :
    ∀ (fuel pos : Nat) (acc : List Str), (input.drop pos).length < fuel →
      splitLoop input delim fuel (some pos) acc
        = some (acc ++ tokensOf delim (input.drop pos)) := by
  intro fuel
  induction fuel with
  | zero => intro pos acc h; exact absurd h (Nat.not_lt_zero _)
  | succ fuel ih =>
    intro pos acc hlen
    rcases findIdx?_split (fun c => !delim.contains c) (input.drop pos) with
      ⟨h1, h2⟩ | ⟨pre, a, tl, h1, h2, h3, h4⟩
    · have h2' : ∀ x ∈ input.drop pos, delim.contains x = true := by
        intro x hx
        have := h2 x hx
        revert this
        cases delim.contains x <;> simp
      have htok : tokensOf delim (input.drop pos) = [] := by
        have := tokensOf_append_delims delim (input.drop pos) [] h2'
        rw [List.append_nil, tokensOf_nil] at this
        exact this
      rw [htok, List.append_nil]
      simp only [splitLoop, Option.some_bind, find_first_not_of, h1]
    · have ha : delim.contains a = false := by
        revert h3
        cases delim.contains a <;> simp
      have h2' : ∀ x ∈ pre, delim.contains x = true := by
        intro x hx
        have := h2 x hx
        revert this
        cases delim.contains x <;> simp
      have hdrop : input.drop (pos + pre.length) = a :: tl := by
        rw [← List.drop_drop, h1]; simp
      have htok1 : tokensOf delim (input.drop pos) = tokensOf delim (a :: tl) := by
        rw [h1]; exact tokensOf_append_delims delim pre _ h2'
      have hlen' : pre.length + (tl.length + 1) < fuel + 1 := by
        have := hlen; rw [h1] at this; simpa using this
      have hstep : splitLoop input delim (fuel + 1) (some pos) acc
          = splitLoop input delim fuel (find_first_of input delim (pos + pre.length))
              (acc ++ [substr input (pos + pre.length)
                ((find_first_of input delim (pos + pre.length)).map
                  (fun e => e - (pos + pre.length)))]) := by
        simp only [splitLoop, Option.some_bind, find_first_not_of, h4]
      rw [hstep, htok1]
      rcases findIdx?_split (fun c => delim.contains c) (a :: tl) with
        ⟨g1, g2⟩ | ⟨pre2, b, tl2, g1, g2, g3, g4⟩
      · obtain ⟨fuel', rfl⟩ : ∃ f, fuel = f + 1 := ⟨fuel - 1, by omega⟩
        have hfind : find_first_of input delim (pos + pre.length) = none := by
          simp only [find_first_of, hdrop, g1]
        rw [hfind, splitLoop_npos, tokensOf_single delim (a :: tl) (by simp) g2]
        simp only [Option.map_none', substr, hdrop]
      · have hpre2 : pre2 ≠ [] := by
          rintro rfl
          simp only [List.nil_append, List.cons.injEq] at g1
          rw [g1.1, g3] at ha
          exact absurd ha (by simp)
        have hpos : 0 < pre2.length := List.length_pos.mpr hpre2
        have hdrop2 : input.drop (pos + pre.length + pre2.length) = b :: tl2 := by
          rw [← List.drop_drop, hdrop, g1]; simp
        have hlen2 : (input.drop (pos + pre.length + pre2.length)).length < fuel := by
          rw [hdrop2]
          have hl : (a :: tl).length = (pre2 ++ b :: tl2).length := by rw [← g1]
          simp only [List.length_cons, List.length_append] at hl ⊢
          omega
        have hfind : find_first_of input delim (pos + pre.length)
            = some (pos + pre.length + pre2.length) := by
          simp only [find_first_of, hdrop, g4]
        have htake : List.take pre2.length (a :: tl) = pre2 := by
          rw [g1]; simp
        rw [hfind, ih _ _ hlen2, hdrop2, g1,
          tokensOf_first delim pre2 b tl2 hpre2 g2 g3, tokensOf_cons_delim delim b tl2 g3]
        simp only [Option.map_some', substr, hdrop, Nat.add_sub_cancel_left, htake,
          List.append_assoc, List.singleton_append]

/-- The helper `splitString` returns on every input, and what it returns are the maximal
delimiter-free runs of the input, in order. -/
theorem splitString_eq (input delim : Str) :
    splitString input delim = some (tokensOf delim input) := by
  have h := splitLoop_eq input delim (input.length + 1) 0 [] (by simp)
  simpa [splitString] using h

/-! ## Lemmas on pipeline assembly -/

theorem Did.refl (log : List Event) : Did log log [] [] [] [] :=
  ⟨[], by simp, rfl, rfl, rfl, rfl, rfl⟩

theorem Did.trans {l0 l1 l2 : List Event}
    {c1 c2 : List (OptixProgramGroupDesc × OptixProgramGroup)}
    {k1 k2 : List (List OptixProgramGroup × OptixPipeline)}
    {p1 p2 : List (OptixProgramGroup × SBTRecord)} {u1 u2 : List DeviceBuffer}
    (h1 : Did l0 l1 c1 k1 p1 u1) (h2 : Did l1 l2 c2 k2 p2 u2) :
    Did l0 l2 (c1 ++ c2) (k1 ++ k2) (p1 ++ p2) (u1 ++ u2) := by
  obtain ⟨n1, e1, a1, b1, d1, f1, g1⟩ := h1
  obtain ⟨n2, e2, a2, b2, d2, f2, g2⟩ := h2
  refine ⟨n1 ++ n2, ?_, ?_, ?_, ?_, ?_, ?_⟩
  · rw [e2, e1, List.append_assoc]
  · rw [← a1, ← a2]; simp [createdGroups]
  · rw [← b1, ← b2]; simp [linkedPipelines]
  · rw [← d1, ← d2]; simp [packedRecords]
  · rw [← f1, ← f2]; simp [uploadedBuffers]
  · rw [List.countP_append, List.countP_append, g1, g2]

theorem Did.debugReport (log : List Event) (b : Prop) [Decidable b] (fmt : Str) :
    Did log (if b then reportMessage .ANARI_SEVERITY_DEBUG fmt log else log) [] [] [] [] := by
  split_ifs
  · exact ⟨[.message .ANARI_SEVERITY_DEBUG fmt], rfl, rfl, rfl, rfl, rfl, rfl⟩
  · exact Did.refl log

theorem Did.checkedCall (log : List Event) (e : Event) (res : OptixResult)
    (hres : e.isFailedCall = (res != OPTIX_SUCCESS)) (hfatal : e.isFatal = false) :
    Did log (OPTIX_CHECK res (log ++ [e])) (createdGroups [e]) (linkedPipelines [e])
      (packedRecords [e]) (uploadedBuffers [e]) := by
  unfold OPTIX_CHECK
  by_cases h : res = OPTIX_SUCCESS
  · refine ⟨[e], by simp [h], rfl, rfl, rfl, rfl, ?_⟩
    simp [List.countP_cons, hres, hfatal, h]
  · refine ⟨[e, .message .ANARI_SEVERITY_FATAL_ERROR "%s".toList],
      by simp [h, reportMessage], ?_, ?_, ?_, ?_, ?_⟩
    · simp [createdGroups, List.filterMap_cons]
    · simp [linkedPipelines, List.filterMap_cons]
    · simp [packedRecords, List.filterMap_cons]
    · simp [uploadedBuffers, List.filterMap_cons]
    · have e1 : ∀ f, Event.isFatal (.message .ANARI_SEVERITY_FATAL_ERROR f) = true :=
        fun _ => rfl
      have e2 : ∀ f, Event.isFailedCall (.message .ANARI_SEVERITY_FATAL_ERROR f) = false :=
        fun _ => rfl
      simp [List.countP_cons, hres, hfatal, h, e1, e2]

theorem createProgramGroup_did (ox : Optix) (ctx : OptixDeviceContext)
    (d : OptixProgramGroupDesc) (fmt : Str) (log : List Event) :
    Did log (createProgramGroup ox ctx d fmt log).2
      [(d, (createProgramGroup ox ctx d fmt log).1)] [] [] [] := by
  have h1 := Did.checkedCall log
    (.programGroupCreate d (ox.optixProgramGroupCreate log ctx d).1
      (ox.optixProgramGroupCreate log ctx d).2.1)
    (ox.optixProgramGroupCreate log ctx d).1 rfl rfl
  have h2 := Did.debugReport
    (OPTIX_CHECK (ox.optixProgramGroupCreate log ctx d).1
      (log ++ [.programGroupCreate d (ox.optixProgramGroupCreate log ctx d).1
        (ox.optixProgramGroupCreate log ctx d).2.1]))
    ((ox.optixProgramGroupCreate log ctx d).2.2 > 1) fmt
  exact Did.trans h1 h2

theorem take_set_succ {α : Type} (l : List α) (k : Nat) (x : α) (h : k < l.length) :
    (l.set k x).take (k + 1) = l.take k ++ [x] := by
  induction l generalizing k with
  | nil => simp at h
  | cons a t ih =>
    cases k with
    | zero => simp
    | succ k =>
      have hk : k < t.length := by simpa using h
      simp [List.set_cons_succ, List.take_succ_cons, ih k hk]

theorem resize_length (v : List OptixProgramGroup) (n : Nat) : (resize v n).length = n := by
  simp only [resize, List.length_append, List.length_take, List.length_replicate]
  omega

theorem resize_one_set (v : List OptixProgramGroup) (x : OptixProgramGroup) :
    (resize v 1).set 0 x = [x] := by
  cases v with
  | nil => rfl
  | cons a t => simp [resize]

theorem map_range_getD {α β : Type} (l : List α) (d : α) (f : α → β) :
    (List.range' 0 l.length).map (fun i => f (l.getD i d)) = l.map f := by
  apply List.ext_getElem
  · simp
  · intro i h1 h2
    have hi : i < l.length := by simpa using h2
    simp [List.getD, List.getElem?_eq_getElem hi]

/-- The index loop of a program-group block: after it, every entry from `k` on holds the
handle created for its index, and the log has grown by exactly those creations. -/
theorem createLoop_did (ox : Optix) (ctx : OptixDeviceContext) (fmt : Str)
    (descOf : Nat → OptixProgramGroupDesc) :
    ∀ (m k : Nat) (pgs : List OptixProgramGroup) (log : List Event), pgs.length = k + m →
      ∃ hs : List OptixProgramGroup, hs.length = m ∧
        ((List.range' k m).foldl
          (fun s i => ((s.1.set i (createProgramGroup ox ctx (descOf i) fmt s.2).1),
            (createProgramGroup ox ctx (descOf i) fmt s.2).2)) (pgs, log)).1
          = pgs.take k ++ hs ∧
        Did log
          ((List.range' k m).foldl
            (fun s i => ((s.1.set i (createProgramGroup ox ctx (descOf i) fmt s.2).1),
              (createProgramGroup ox ctx (descOf i) fmt s.2).2)) (pgs, log)).2
          (((List.range' k m).map descOf).zip hs) [] [] [] := by
  intro m
  induction m with
  | zero =>
    intro k pgs log hlen
    refine ⟨[], rfl, ?_, ?_⟩
    · have hle : pgs.length ≤ k := by omega
      simp [List.take_of_length_le hle]
    · simpa using Did.refl log
  | succ m ih =>
    intro k pgs log hlen
    have hk : k < pgs.length := by omega
    obtain ⟨hs, h1, h2, h3⟩ := ih (k + 1)
      (pgs.set k (createProgramGroup ox ctx (descOf k) fmt log).1)
      (createProgramGroup ox ctx (descOf k) fmt log).2
      (by rw [List.length_set]; omega)
    refine ⟨(createProgramGroup ox ctx (descOf k) fmt log).1 :: hs, by simp [h1], ?_, ?_⟩
    · rw [List.range'_succ, List.foldl_cons, h2, take_set_succ _ _ _ hk]
      simp
    · rw [List.range'_succ, List.foldl_cons]
      have := Did.trans (createProgramGroup_did ox ctx (descOf k) fmt log) h3
      simpa using this

theorem missLoop_did (ox : Optix) (state : DeviceGlobalState) (om : OptixModule)
    (missNames : List Str) (pgs : List OptixProgramGroup) (log : List Event)
    (hlen : pgs.length = missNames.length) :
    ∃ hs : List OptixProgramGroup, hs.length = missNames.length ∧
      (missLoop ox state om missNames pgs log).1 = hs ∧
      Did log (missLoop ox state om missNames pgs log).2
        ((missNames.map (missDesc om)).zip hs) [] [] [] := by
  obtain ⟨hs, h1, h2, h3⟩ := createLoop_did ox state.optixContext "PG Miss Log:\n%s".toList
    (fun i => missDesc om (missNames.getD i [])) pgs.length 0 pgs log (by simp)
  refine ⟨hs, by rw [h1, hlen], ?_, ?_⟩
  · unfold missLoop
    rw [List.range_eq_range']
    simpa using h2
  · unfold missLoop
    rw [List.range_eq_range']
    rw [hlen, map_range_getD missNames [] (missDesc om)] at h3
    rw [hlen]
    exact h3

theorem hitgroupLoop_did (ox : Optix) (state : DeviceGlobalState) (om : OptixModule)
    (hitgroupNames : List HitgroupFunctionNames) (pgs : List OptixProgramGroup)
    (log : List Event) (hlen : pgs.length = hitgroupNames.length) :
    ∃ hs : List OptixProgramGroup, hs.length = hitgroupNames.length ∧
      (hitgroupLoop ox state om hitgroupNames pgs log).1 = hs ∧
      Did log (hitgroupLoop ox state om hitgroupNames pgs log).2
        ((hitgroupNames.map (hitgroupDesc state om)).zip hs) [] [] [] := by
  obtain ⟨hs, h1, h2, h3⟩ := createLoop_did ox state.optixContext
    "PG Hitgroup Log:\n%s".toList
    (fun i => hitgroupDesc state om (hitgroupNames.getD i ⟨[], []⟩)) pgs.length 0 pgs log
    (by simp)
  refine ⟨hs, by rw [h1, hlen], ?_, ?_⟩
  · unfold hitgroupLoop
    rw [List.range_eq_range']
    simpa using h2
  · unfold hitgroupLoop
    rw [List.range_eq_range']
    rw [hlen, map_range_getD hitgroupNames ⟨[], []⟩ (hitgroupDesc state om)] at h3
    rw [hlen]
    exact h3

theorem packRecords_did (ox : Optix) :
    ∀ (pgs : List OptixProgramGroup) (records : List SBTRecord) (log : List Event),
      ∃ recs : List SBTRecord, recs.length = pgs.length ∧
        (packRecords ox pgs records log).1 = records ++ recs ∧
        Did log (packRecords ox pgs records log).2 [] [] (pgs.zip recs) [] := by
  intro pgs
  induction pgs with
  | nil =>
    intro records log
    exact ⟨[], rfl, by simp [packRecords], by simpa [packRecords] using Did.refl log⟩
  | cons pg pgs ih =>
    intro records log
    obtain ⟨recs, h1, h2, h3⟩ := ih (records ++ [⟨(ox.optixSbtRecordPackHeader log pg).2⟩])
      (OPTIX_CHECK (ox.optixSbtRecordPackHeader log pg).1
        (log ++ [.sbtRecordPackHeader pg (ox.optixSbtRecordPackHeader log pg).1
          (ox.optixSbtRecordPackHeader log pg).2]))
    refine ⟨⟨(ox.optixSbtRecordPackHeader log pg).2⟩ :: recs, by simp [h1], ?_, ?_⟩
    · simp only [packRecords]
      rw [h2]
      simp
    · simp only [packRecords]
      have hc := Did.checkedCall log
        (.sbtRecordPackHeader pg (ox.optixSbtRecordPackHeader log pg).1
          (ox.optixSbtRecordPackHeader log pg).2)
        (ox.optixSbtRecordPackHeader log pg).1 rfl rfl
      have := Did.trans hc h3
      simpa [packedRecords, createdGroups, linkedPipelines, uploadedBuffers] using this

theorem upload_did (ox : Optix) (records : List SBTRecord) (log : List Event) :
    Did log (DeviceBuffer.upload ox records log).2 [] [] []
      [(DeviceBuffer.upload ox records log).1] :=
  ⟨[.upload records (ox.upload log records)], rfl, rfl, rfl, rfl, rfl, rfl⟩

theorem raygenProgram_spec (ox : Optix) (state : DeviceGlobalState) (om : OptixModule)
    (s : Renderer × List Event) :
    ∃ pg : OptixProgramGroup,
      (raygenProgram ox state om s).1 = { s.1 with m_raygenPGs := [pg] } ∧
      Did s.2 (raygenProgram ox state om s).2 [(raygenDesc om, pg)] [] [] [] := by
  refine ⟨_, ?_, createProgramGroup_did ox state.optixContext (raygenDesc om)
    "PG Raygen Log:\n%s\n".toList s.2⟩
  simp only [raygenProgram, resize_one_set]

theorem missProgram_spec (ox : Optix) (state : DeviceGlobalState) (om : OptixModule)
    (missNames : List Str) (s : Renderer × List Event) :
    ∃ mpgs : List OptixProgramGroup, mpgs.length = missNames.length ∧
      (missProgram ox state om missNames s).1 = { s.1 with m_missPGs := mpgs } ∧
      Did s.2 (missProgram ox state om missNames s).2
        ((missNames.map (missDesc om)).zip mpgs) [] [] [] := by
  obtain ⟨hs, h1, h2, h3⟩ := missLoop_did ox state om missNames
    (resize s.1.m_missPGs missNames.length) s.2 (resize_length _ _)
  exact ⟨hs, h1, by simp only [missProgram, h2], h3⟩

theorem hitProgram_spec (ox : Optix) (state : DeviceGlobalState) (om : OptixModule)
    (hitgroupNames : List HitgroupFunctionNames) (s : Renderer × List Event) :
    ∃ hpgs : List OptixProgramGroup, hpgs.length = hitgroupNames.length ∧
      (hitProgram ox state om hitgroupNames s).1 = { s.1 with m_hitgroupPGs := hpgs } ∧
      Did s.2 (hitProgram ox state om hitgroupNames s).2
        ((hitgroupNames.map (hitgroupDesc state om)).zip hpgs) [] [] [] := by
  obtain ⟨hs, h1, h2, h3⟩ := hitgroupLoop_did ox state om hitgroupNames
    (resize s.1.m_hitgroupPGs hitgroupNames.length) s.2 (resize_length _ _)
  exact ⟨hs, h1, by simp only [hitProgram, h2], h3⟩

theorem pipelineBlock_spec (ox : Optix) (state : DeviceGlobalState)
    (s : Renderer × List Event) :
    ∃ pl : OptixPipeline,
      (pipelineBlock ox state s).1 = { s.1 with m_pipeline := pl } ∧
      Did s.2 (pipelineBlock ox state s).2 []
        [(s.1.m_raygenPGs ++ s.1.m_missPGs ++ s.1.m_hitgroupPGs, pl)] [] [] := by
  refine ⟨_, rfl, ?_⟩
  have h1 := Did.checkedCall s.2
    (.pipelineCreate pipelineCompileOptions pipelineLinkOptions
      (s.1.m_raygenPGs ++ s.1.m_missPGs ++ s.1.m_hitgroupPGs)
      (ox.optixPipelineCreate s.2 state.optixContext pipelineCompileOptions
        pipelineLinkOptions (s.1.m_raygenPGs ++ s.1.m_missPGs ++ s.1.m_hitgroupPGs)
        s.1.m_pipeline).1
      (ox.optixPipelineCreate s.2 state.optixContext pipelineCompileOptions
        pipelineLinkOptions (s.1.m_raygenPGs ++ s.1.m_missPGs ++ s.1.m_hitgroupPGs)
        s.1.m_pipeline).2.1)
    _ rfl rfl
  exact Did.trans h1 (Did.debugReport _ _ "Pipeline Create Log:\n%s".toList)

theorem packAndUpload_spec (ox : Optix) (pgs : List OptixProgramGroup) (log : List Event) :
    ∃ (recs : List SBTRecord) (ptr : CUdeviceptr), recs.length = pgs.length ∧
      (packAndUpload ox pgs log).1 = ⟨recs, ptr⟩ ∧
      Did log (packAndUpload ox pgs log).2 [] [] (pgs.zip recs) [⟨recs, ptr⟩] := by
  obtain ⟨recs, h1, h2, h3⟩ := packRecords_did ox pgs [] log
  have hu := upload_did ox (packRecords ox pgs [] log).1 (packRecords ox pgs [] log).2
  rw [List.nil_append] at h2
  refine ⟨recs, ox.upload (packRecords ox pgs [] log).2 recs, h1, ?_, ?_⟩
  · simp only [packAndUpload, DeviceBuffer.upload, h2]
  · have := Did.trans h3 hu
    simpa only [packAndUpload, DeviceBuffer.upload, h2, List.append_nil, List.nil_append]
      using this

theorem sbtBlock_spec (ox : Optix) (s : Renderer × List Event) :
    ∃ (rrecs mrecs hrecs : List SBTRecord) (rptr mptr hptr : CUdeviceptr),
      rrecs.length = s.1.m_raygenPGs.length ∧ mrecs.length = s.1.m_missPGs.length ∧
      hrecs.length = s.1.m_hitgroupPGs.length ∧
      (sbtBlock ox s).1 = { s.1 with
        m_raygenRecordsBuffer := ⟨rrecs, rptr⟩
        m_missRecordsBuffer := ⟨mrecs, mptr⟩
        m_hitgroupRecordsBuffer := ⟨hrecs, hptr⟩
        m_sbt := ⟨rptr, mptr, toUnsignedInt sizeof_SBTRecord, toUnsignedInt mrecs.length,
          hptr, toUnsignedInt sizeof_SBTRecord, toUnsignedInt hrecs.length⟩ } ∧
      Did s.2 (sbtBlock ox s).2 [] []
        (s.1.m_raygenPGs.zip rrecs ++ s.1.m_missPGs.zip mrecs ++ s.1.m_hitgroupPGs.zip hrecs)
        [⟨rrecs, rptr⟩, ⟨mrecs, mptr⟩, ⟨hrecs, hptr⟩] := by
  simp only [sbtBlock]
  obtain ⟨rrecs, rptr, r1, r2, r3⟩ := packAndUpload_spec ox s.1.m_raygenPGs s.2
  generalize packAndUpload ox s.1.m_raygenPGs s.2 = A at *
  obtain ⟨mrecs, mptr, m1, m2, m3⟩ := packAndUpload_spec ox s.1.m_missPGs A.2
  generalize packAndUpload ox s.1.m_missPGs A.2 = B at *
  obtain ⟨hrecs, hptr, g1, g2, g3⟩ := packAndUpload_spec ox s.1.m_hitgroupPGs B.2
  generalize packAndUpload ox s.1.m_hitgroupPGs B.2 = C at *
  refine ⟨rrecs, mrecs, hrecs, rptr, mptr, hptr, r1, m1, g1, ?_, ?_⟩
  · simp only [r2, m2, g2]
  · have := Did.trans (Did.trans r3 m3) g3
    simpa only [List.append_nil, List.nil_append, List.singleton_append, List.cons_append]
      using this

/-- What `initOptixPipeline` does, for every behaviour of the device: it sets the three
program-group vectors to freshly created handles (one, one per miss name, one per hit-group
descriptor), sets the pipeline handle to what the link call left, fills the three record
buffers and writes every member of the binding table; the log grows by exactly those
creations (in the order raygen, miss, hit group), one link of all groups in that order,
one header pack per group in the same order and three uploads, with one fatal message per
failed call. -/
theorem initOptixPipeline_spec (ox : Optix) (state : DeviceGlobalState) (om : OptixModule)
    (missNames : List Str) (hitgroupNames : List HitgroupFunctionNames) (r : Renderer)
    (log : List Event) :
    ∃ (pg : OptixProgramGroup) (mpgs hpgs : List OptixProgramGroup) (pl : OptixPipeline)
      (rrec : SBTRecord) (mrecs hrecs : List SBTRecord) (rptr mptr hptr : CUdeviceptr),
      mpgs.length = missNames.length ∧ hpgs.length = hitgroupNames.length ∧
      mrecs.length = missNames.length ∧ hrecs.length = hitgroupNames.length ∧
      (initOptixPipeline ox state om missNames hitgroupNames (r, log)).1 = { r with
        m_raygenPGs := [pg]
        m_missPGs := mpgs
        m_hitgroupPGs := hpgs
        m_pipeline := pl
        m_raygenRecordsBuffer := ⟨[rrec], rptr⟩
        m_missRecordsBuffer := ⟨mrecs, mptr⟩
        m_hitgroupRecordsBuffer := ⟨hrecs, hptr⟩
        m_sbt := ⟨rptr, mptr, toUnsignedInt sizeof_SBTRecord, toUnsignedInt mrecs.length,
          hptr, toUnsignedInt sizeof_SBTRecord, toUnsignedInt hrecs.length⟩ } ∧
      Did log (initOptixPipeline ox state om missNames hitgroupNames (r, log)).2
        ((raygenDesc om, pg) :: ((missNames.map (missDesc om)).zip mpgs
          ++ (hitgroupNames.map (hitgroupDesc state om)).zip hpgs))
        [(pg :: (mpgs ++ hpgs), pl)]
        ((pg, rrec) :: (mpgs.zip mrecs ++ hpgs.zip hrecs))
        [⟨[rrec], rptr⟩, ⟨mrecs, mptr⟩, ⟨hrecs, hptr⟩] := by
  simp only [initOptixPipeline]
  obtain ⟨pg, a1, a2⟩ := raygenProgram_spec ox state om (r, log)
  generalize raygenProgram ox state om (r, log) = s1 at *
  obtain ⟨mpgs, b0, b1, b2⟩ := missProgram_spec ox state om missNames s1
  generalize missProgram ox state om missNames s1 = s2 at *
  obtain ⟨hpgs, c0, c1, c2⟩ := hitProgram_spec ox state om hitgroupNames s2
  generalize hitProgram ox state om hitgroupNames s2 = s3 at *
  obtain ⟨pl, d1, d2⟩ := pipelineBlock_spec ox state s3
  generalize pipelineBlock ox state s3 = s4 at *
  obtain ⟨rrecs, mrecs, hrecs, rptr, mptr, hptr, e1, e2, e3, e4, e5⟩ := sbtBlock_spec ox s4
  generalize sbtBlock ox s4 = s5 at *
  have hr : s4.1.m_raygenPGs = [pg] := by rw [d1, c1, b1, a1]
  have hm : s4.1.m_missPGs = mpgs := by rw [d1, c1, b1]
  have hh : s4.1.m_hitgroupPGs = hpgs := by rw [d1, c1]
  have hr3 : s3.1.m_raygenPGs = [pg] := by rw [c1, b1, a1]
  have hm3 : s3.1.m_missPGs = mpgs := by rw [c1, b1]
  have hh3 : s3.1.m_hitgroupPGs = hpgs := by rw [c1]
  rw [hr] at e1
  obtain ⟨rrec, rfl⟩ : ∃ x, rrecs = [x] := by
    match rrecs, e1 with
    | [x], _ => exact ⟨x, rfl⟩
  rw [hm, b0] at e2
  rw [hh, c0] at e3
  refine ⟨pg, mpgs, hpgs, pl, rrec, mrecs, hrecs, rptr, mptr, hptr, b0, c0, e2, e3, ?_, ?_⟩
  · rw [e4, d1, c1, b1, a1]
  · have := Did.trans (Did.trans (Did.trans (Did.trans a2 b2) c2) d2) e5
    rw [hr, hm, hh, hr3, hm3, hh3] at this
    simpa only [List.append_nil, List.nil_append, List.singleton_append, List.cons_append,
      List.zip_cons_cons, List.zip_nil_left, List.append_assoc] using this

theorem Did.eventsSince {log log' : List Event}
    {c : List (OptixProgramGroupDesc × OptixProgramGroup)}
    {k : List (List OptixProgramGroup × OptixPipeline)}
    {p : List (OptixProgramGroup × SBTRecord)} {u : List DeviceBuffer}
    (h : Did log log' c k p u) :
    log' = log ++ eventsSince log log' ∧ createdGroups (eventsSince log log') = c ∧
    linkedPipelines (eventsSince log log') = k ∧ packedRecords (eventsSince log log') = p ∧
    uploadedBuffers (eventsSince log log') = u ∧
    (eventsSince log log').countP Event.isFatal
      = (eventsSince log log').countP Event.isFailedCall := by
  obtain ⟨new, e, h1, h2, h3, h4, h5⟩ := h
  have hnew : visrtx.eventsSince log log' = new := by
    simp [visrtx.eventsSince, e]
  rw [hnew]
  exact ⟨e, h1, h2, h3, h4, h5⟩

theorem countP_isRaygen_zip (ds : List OptixProgramGroupDesc) (l : List OptixProgramGroup)
    (h : ∀ d ∈ ds, d.isRaygen = false) :
    (ds.zip l).countP (fun x => x.1.isRaygen) = 0 := by
  rw [List.countP_eq_zero]
  intro x hx
  have hmem : x.1 ∈ ds := (List.of_mem_zip hx).1
  simp [h x.1 hmem]

theorem getElem?_zip_of {α β : Type} (l1 : List α) (l2 : List β) (i : Nat) (a : α) (b : β)
    (h1 : l1[i]? = some a) (h2 : l2[i]? = some b) : (l1.zip l2)[i]? = some (a, b) :=
  List.getElem?_zip_eq_some.mpr ⟨h1, h2⟩

theorem getElem?_of_length {α : Type} (l : List α) (i : Nat) (h : i < l.length) :
    ∃ a, l[i]? = some a :=
  ⟨l[i], List.getElem?_eq_getElem h⟩

/-! ## Lemmas on the factory -/

theorem delim_underscore_contains (c : Char) :
    "_".toList.contains c = (c == '_') := by
  show ['_'].contains c = (c == '_')
  cases h : (c == '_') <;> simp [List.contains, List.elem, h]

theorem tokensOf_two (p m : Str) (hp : p ≠ []) (hpf : '_' ∉ p) (hm : m ≠ [])
    (hmf : '_' ∉ m) : tokensOf "_".toList (p ++ '_' :: m) = [p, m] := by
  have free : ∀ t : Str, '_' ∉ t → ∀ x ∈ t, "_".toList.contains x = false := by
    intro t ht x hx
    rw [delim_underscore_contains]
    have : x ≠ '_' := fun h => ht (h ▸ hx)
    simpa using this
  rw [tokensOf_first "_".toList p '_' m hp (free p hpf) (by decide),
    tokensOf_single "_".toList m hm (free m hmf)]

theorem afterFirstUnderscore_append (p m : Str) (hpf : '_' ∉ p) :
    afterFirstUnderscore (p ++ '_' :: m) = m := by
  induction p with
  | nil => simp [afterFirstUnderscore, List.dropWhile]
  | cons c cs ih =>
    have hc : c ≠ '_' := fun h => hpf (h ▸ List.mem_cons_self _ _)
    have hcs : '_' ∉ cs := fun h => hpf (List.mem_cons_of_mem _ h)
    have := ih hcs
    simp only [afterFirstUnderscore] at this ⊢
    have hb : (c != '_') = true := by simpa using hc
    rw [List.cons_append, List.dropWhile_cons, hb]
    simpa using this

/-- On a name that is none of the recognised ones the factory takes its last branch, and
the tokens it looks at are the maximal underscore-free runs of the name. -/
theorem make_renderer_unrecognised (init : MemberInits) (s : Str)
    (hs : s ∉ recognisedNames) :
    make_renderer init s = some (.Debug
      (match tokensOf "_".toList s with
        | _ :: m :: _ => (Debug.new init).setParam "method".toList (.string m)
        | _ => Debug.new init)) := by
  simp only [recognisedNames, List.mem_cons, List.mem_singleton, not_or, List.mem_nil_iff,
    or_false] at hs
  obtain ⟨h1, h2, h3, h4, h5, h6, h7⟩ := hs
  simp only [make_renderer, h1, h2, h3, h4, h5, h6, h7, if_false, or_self, splitString_eq]
  rcases tokensOf "_".toList s with _ | ⟨a, _ | ⟨b, l⟩⟩ <;> simp

theorem unrecognised_of_two_tokens (s p m : Str) (h : tokensOf "_".toList s = [p, m])
    (hm : m ≠ "pathtracer".toList) : s ∉ recognisedNames := by
  intro hmem
  simp only [recognisedNames, List.mem_cons, List.mem_singleton, List.mem_nil_iff,
    or_false] at hmem
  have e1 : tokensOf "_".toList "raycast".toList = ["raycast".toList] := by decide
  have e2 : tokensOf "_".toList "ao".toList = ["ao".toList] := by decide
  have e3 : tokensOf "_".toList "diffuse_pathtracer".toList
      = ["diffuse".toList, "pathtracer".toList] := by decide
  have e4 : tokensOf "_".toList "dpt".toList = ["dpt".toList] := by decide
  have e5 : tokensOf "_".toList "scivis".toList = ["scivis".toList] := by decide
  have e6 : tokensOf "_".toList "sv".toList = ["sv".toList] := by decide
  have e7 : tokensOf "_".toList "default".toList = ["default".toList] := by decide
  rcases hmem with rfl | rfl | rfl | rfl | rfl | rfl | rfl
  · rw [e1] at h; simp at h
  · rw [e2] at h; simp at h
  · rw [e3] at h
    simp only [List.cons.injEq, and_true] at h
    exact hm h.2.symm
  · rw [e4] at h; simp at h
  · rw [e5] at h; simp at h
  · rw [e6] at h; simp at h
  · rw [e7] at h; simp at h

theorem debugMethodTable_spec :
    ∀ x ∈ debugMethodTable,
      x.1 ≠ [] ∧ '_' ∉ x.1 ∧ x.1 ≠ "pathtracer".toList ∧ methodFromString x.1 = x.2 := by
  decide

theorem make_renderer_isSome (init : MemberInits) (s : Str) :
    ∃ o : RendererObject, make_renderer init s = some o := by
  by_cases hs : s ∈ recognisedNames
  · simp only [recognisedNames, List.mem_cons, List.mem_singleton, List.mem_nil_iff,
      or_false] at hs
    rcases hs with rfl | rfl | rfl | rfl | rfl | rfl | rfl <;> exact ⟨_, rfl⟩
  · exact ⟨_, make_renderer_unrecognised init s hs⟩

theorem setDeviceState_m_state (o : RendererObject) (d : DeviceGlobalState) :
    (o.setDeviceState d).base.m_state = some d := by
  cases o <;> rfl

/-! ## C1: the factory on unrecognised names -/

/-- C1 (as stated, refuted): `"a_b_c"` is none of the recognised names and contains an
underscore; `make_renderer` builds a Debug variant for it whose `"method"` parameter is
`"b"`, while the substring after the first underscore is `"b_c"`. -/
theorem C1_counterexample :
    "a_b_c".toList ∉ recognisedNames ∧ '_' ∈ "a_b_c".toList ∧
    afterFirstUnderscore "a_b_c".toList = "b_c".toList ∧
    make_renderer MemberInits.sample "a_b_c".toList
      = some (.Debug ((Debug.new MemberInits.sample).setParam "method".toList
          (.string "b".toList))) ∧
    findParam ((Debug.new MemberInits.sample).setParam "method".toList
        (.string "b".toList)).params "method".toList
      ≠ some (.string (afterFirstUnderscore "a_b_c".toList)) := by
  refine ⟨by decide, by decide, by decide, by decide, by decide⟩

/-- C1 (amended): for every name `s` that is none of the recognised names, `make_renderer`
returns a Debug variant; before any commit its `"method"` parameter is the second maximal
underscore-free run of `s` when `s` has at least two such runs, and no parameter is set
otherwise.  When `s = p ++ "_" ++ m` with `p` and `m` non-empty and free of underscores,
that parameter is the substring of `s` after its first underscore. -/
theorem C1_make_renderer_debug_method (init : MemberInits) (s : Str)
    (hs : s ∉ recognisedNames) :
    ∃ d : Debug, make_renderer init s = some (.Debug d) ∧
      d = (match tokensOf "_".toList s with
        | _ :: m :: _ => (Debug.new init).setParam "method".toList (.string m)
        | _ => Debug.new init) ∧
      (∀ m, (tokensOf "_".toList s)[1]? = some m →
        findParam d.params "method".toList = some (.string m)) ∧
      ((tokensOf "_".toList s).length ≤ 1 → d.params = []) ∧
      (∀ p m, p ≠ [] → '_' ∉ p → m ≠ [] → '_' ∉ m → s = p ++ '_' :: m →
        afterFirstUnderscore s = m ∧
        findParam d.params "method".toList = some (.string (afterFirstUnderscore s))) := by
  refine ⟨_, make_renderer_unrecognised init s hs, rfl, ?_, ?_, ?_⟩
  · intro m hm
    rcases h : tokensOf "_".toList s with _ | ⟨a, _ | ⟨b, l⟩⟩
    · rw [h] at hm; simp at hm
    · rw [h] at hm; simp at hm
    · rw [h] at hm
      simp only [List.getElem?_cons_succ, List.getElem?_cons_zero, Option.some.injEq] at hm
      subst hm
      simp [Debug.setParam, Debug.new, Renderer.new, setParam, findParam]
  · intro hlen
    rcases h : tokensOf "_".toList s with _ | ⟨a, _ | ⟨b, l⟩⟩
    · simp [Debug.new, Renderer.new]
    · simp [Debug.new, Renderer.new]
    · rw [h] at hlen; simp at hlen
  · intro p m hp hpf hm hmf hsm
    subst hsm
    rw [tokensOf_two p m hp hpf hm hmf, afterFirstUnderscore_append p m hpf]
    simp [Debug.setParam, Debug.new, Renderer.new, setParam, findParam]

/-- C1 (amended), instance: the name `"foo_Ng.abs"`. -/
theorem C1_make_renderer_debug_method_witness :
    "foo_Ng.abs".toList ∉ recognisedNames ∧
    ∃ d : Debug, make_renderer MemberInits.sample "foo_Ng.abs".toList = some (.Debug d) ∧
      d = (match tokensOf "_".toList "foo_Ng.abs".toList with
        | _ :: m :: _ => (Debug.new MemberInits.sample).setParam "method".toList (.string m)
        | _ => Debug.new MemberInits.sample) ∧
      (∀ m, (tokensOf "_".toList "foo_Ng.abs".toList)[1]? = some m →
        findParam d.params "method".toList = some (.string m)) ∧
      ((tokensOf "_".toList "foo_Ng.abs".toList).length ≤ 1 → d.params = []) ∧
      (∀ p m, p ≠ [] → '_' ∉ p → m ≠ [] → '_' ∉ m → "foo_Ng.abs".toList = p ++ '_' :: m →
        afterFirstUnderscore "foo_Ng.abs".toList = m ∧
        findParam d.params "method".toList
          = some (.string (afterFirstUnderscore "foo_Ng.abs".toList))) :=
  ⟨by decide, C1_make_renderer_debug_method MemberInits.sample "foo_Ng.abs".toList (by decide)⟩

/-! ## C2: parameter introspection -/

/-- For every lookup, `Renderer::getParameterInfo` returns the null result for
`lightFalloff` (FLOAT32) of `"scivis"`, for `maxDepth` (INT32) of `"dpt"` and for
`backgroundColor` (FLOAT32_VEC4) of every subtype: the results of the per-class functions
are dropped, and `backgroundColor` is tested against FLOAT32. -/
theorem Renderer_getParameterInfo_drops_class_results {ι : Type} (fromString : FromString ι)
    (aoInfo : Str → ANARIDataType → Str → ANARIDataType → Option ι)
    (infoName : Str) (infoType : ANARIDataType) :
    Renderer.getParameterInfo fromString aoInfo "scivis".toList "lightFalloff".toList
      ANARI_FLOAT32 infoName infoType = none ∧
    Renderer.getParameterInfo fromString aoInfo "dpt".toList "maxDepth".toList
      ANARI_INT32 infoName infoType = none ∧
    (∀ subtype, Renderer.getParameterInfo fromString aoInfo subtype
      "backgroundColor".toList ANARI_FLOAT32_VEC4 infoName infoType = none) := by
  refine ⟨?_, ?_, ?_⟩
  · simp [Renderer.getParameterInfo]
  · simp [Renderer.getParameterInfo]
  · intro subtype
    simp [Renderer.getParameterInfo]

/-- C2 (as stated, refuted): `Renderer::getParameters` lists `method` (STRING) for
`"debug"`, and `Renderer::getParameterInfo` returns the null result for it, nothing being
registered for that parameter.  It also lists `lightFalloff` (FLOAT32) for `"scivis"` and
`maxDepth` (INT32) for `"dpt"`; for both `Renderer::getParameterInfo` returns the null
result although the per-class function it calls finds the descriptor (default 0.25, min 0,
max 1, resp. default 5, min 1, max 256).  The lookup used answers every query. -/
theorem C2_counterexample :
    (∃ l, Renderer.getParameters "debug".toList = some l ∧
      ⟨some "method".toList, ANARI_STRING⟩ ∈ l) ∧
    Renderer.getParameterInfo FromString.whole (fun _ _ _ _ => none) "debug".toList
      "method".toList ANARI_STRING "default".toList ANARI_STRING = none ∧
    (∃ l, Renderer.getParameters "scivis".toList = some l ∧
      ⟨some "lightFalloff".toList, ANARI_FLOAT32⟩ ∈ l) ∧
    Renderer.getParameterInfo FromString.whole (fun _ _ _ _ => none) "scivis".toList
      "lightFalloff".toList ANARI_FLOAT32 "default".toList ANARI_FLOAT32 = none ∧
    SciVis.getParameterInfo FromString.whole "lightFalloff".toList ANARI_FLOAT32
        "default".toList ANARI_FLOAT32
      = some ⟨false, "energy falloff when evaluating lights".toList, .float32 (1 / 4),
          some (.float32 0), some (.float32 1)⟩ ∧
    (∃ l, Renderer.getParameters "dpt".toList = some l ∧
      ⟨some "maxDepth".toList, ANARI_INT32⟩ ∈ l) ∧
    Renderer.getParameterInfo FromString.whole (fun _ _ _ _ => none) "dpt".toList
      "maxDepth".toList ANARI_INT32 "default".toList ANARI_INT32 = none ∧
    DiffusePathTracer.getParameterInfo FromString.whole "maxDepth".toList ANARI_INT32
        "default".toList ANARI_INT32
      = some ⟨false, "maximum per-pixel path depth".toList, .int32 5,
          some (.int32 1), some (.int32 256)⟩ := by
  refine ⟨⟨_, rfl, by decide⟩, rfl, ⟨_, rfl, by decide⟩, rfl, rfl, ⟨_, rfl, by decide⟩, rfl,
    rfl⟩

/-- C2 (amended): for every subtype, `Renderer::getParameterInfo` returns for
`pixelSamples` (INT32) the lookup in its descriptor (default 1, no minimum or maximum) and
for `method` (STRING) the null result; every non-null parameter list of
`Renderer::getParameters` contains `pixelSamples` (INT32); and the per-class functions
return, for each parameter of their class, the lookup in its descriptor: SciVis for
`lightFalloff` (0.25, min 0, max 1), `ambientSamples` (0, min 0, max 256),
`ambientIntensity` (1) and `ambientColor` ((1,1,1), min (0,0,0), max (1,1,1));
DiffusePathTracer for `maxDepth` (5, min 1, max 256) and `R` (0.5, min 0, max 1). -/
theorem C2_getParameterInfo_by_design {ι : Type} (fromString : FromString ι)
    (aoInfo : Str → ANARIDataType → Str → ANARIDataType → Option ι)
    (infoName : Str) (infoType : ANARIDataType) :
    (∀ subtype, Renderer.getParameterInfo fromString aoInfo subtype "pixelSamples".toList
        ANARI_INT32 infoName infoType
      = fromString ⟨false, "samples per-pixel each frame".toList, .int32 1, none, none⟩
          infoName infoType) ∧
    (∀ subtype, Renderer.getParameterInfo fromString aoInfo subtype "method".toList
        ANARI_STRING infoName infoType = none) ∧
    (∀ subtype, Renderer.getParameters subtype = none ∨
      ∃ l, Renderer.getParameters subtype = some l ∧
        ⟨some "pixelSamples".toList, ANARI_INT32⟩ ∈ l) ∧
    SciVis.getParameterInfo fromString "lightFalloff".toList ANARI_FLOAT32 infoName infoType
      = fromString ⟨false, "energy falloff when evaluating lights".toList, .float32 (1 / 4),
          some (.float32 0), some (.float32 1)⟩ infoName infoType ∧
    SciVis.getParameterInfo fromString "ambientSamples".toList ANARI_INT32 infoName infoType
      = fromString ⟨false, "number of ambient occlusion samples each frame".toList,
          .int32 0, some (.int32 0), some (.int32 256)⟩ infoName infoType ∧
    SciVis.getParameterInfo fromString "ambientIntensity".toList ANARI_FLOAT32 infoName
        infoType
      = fromString ⟨false, "ambient lighting intensity".toList, .float32 1, none, none⟩
          infoName infoType ∧
    SciVis.getParameterInfo fromString "ambientColor".toList ANARI_FLOAT32_VEC3 infoName
        infoType
      = fromString ⟨false, "ambient lighting color".toList, .vec3 ⟨1, 1, 1⟩,
          some (.vec3 ⟨0, 0, 0⟩), some (.vec3 ⟨1, 1, 1⟩)⟩ infoName infoType ∧
    DiffusePathTracer.getParameterInfo fromString "maxDepth".toList ANARI_INT32 infoName
        infoType
      = fromString ⟨false, "maximum per-pixel path depth".toList, .int32 5,
          some (.int32 1), some (.int32 256)⟩ infoName infoType ∧
    DiffusePathTracer.getParameterInfo fromString "R".toList ANARI_FLOAT32 infoName infoType
      = fromString ⟨false, "per-bounce energy falloff factor".toList, .float32 (1 / 2),
          some (.float32 0), some (.float32 1)⟩ infoName infoType := by
  refine ⟨?_, ?_, ?_, ?_, ?_, ?_, ?_, ?_, ?_⟩
  · intro subtype
    simp [Renderer.getParameterInfo]
  · intro subtype
    simp [Renderer.getParameterInfo]
  · intro subtype
    unfold Renderer.getParameters
    split_ifs <;> first | exact Or.inl rfl | exact Or.inr ⟨_, rfl, by decide⟩
  · simp [SciVis.getParameterInfo]
  · simp [SciVis.getParameterInfo]
  · simp [SciVis.getParameterInfo]
  · simp [SciVis.getParameterInfo, Vec3.splat]
  · simp [DiffusePathTracer.getParameterInfo]
  · simp [DiffusePathTracer.getParameterInfo]

/-! ## C3, C4: clamps applied by commit -/

theorem std_clamp_int (v lo hi : Int) (h : lo ≤ hi) : std_clamp v lo hi = max lo (min v hi) := by
  unfold std_clamp
  split_ifs with h1 h2
  · rw [max_eq_left]; exact le_trans (min_le_left _ _) (le_of_lt h1)
  · rw [min_eq_right (le_of_lt h2), max_eq_right h]
  · rw [min_eq_left (not_lt.mp h2), max_eq_right (not_lt.mp h1)]

theorem std_clamp_mem {α : Type} [LinearOrder α] (v lo hi : α) (h : lo ≤ hi) :
    lo ≤ std_clamp v lo hi ∧ std_clamp v lo hi ≤ hi := by
  unfold std_clamp
  split_ifs with h1 h2
  · exact ⟨le_refl _, h⟩
  · exact ⟨h, le_refl _⟩
  · exact ⟨not_lt.mp h1, not_lt.mp h2⟩

theorem glm_clamp1_mem (x lo hi : ℚ) (h : lo ≤ hi) :
    lo ≤ glm_clamp1 x lo hi ∧ glm_clamp1 x lo hi ≤ hi := by
  unfold glm_clamp1
  exact ⟨le_min (le_max_right _ _) h, min_le_right _ _⟩

/-- C3: for every pending integer `d` of `maxDepth`, `DiffusePathTracer::commit` stores
`max(1, min(d, 256))`, and `5` when the parameter is unset; for every pending integer `a`
of `ambientSamples`, `SciVis::commit` stores `max(0, min(a, 256))`, and `0` when the
parameter is unset. -/
theorem C3_integer_clamps (o : DiffusePathTracer) (v : SciVis) (d a : Int)
    (hd : findParam o.params "maxDepth".toList = some (.int32 d))
    (ha : findParam v.params "ambientSamples".toList = some (.int32 a)) :
    o.commit.m_maxDepth = max 1 (min d 256) ∧
    v.commit.m_aoSamples = max 0 (min a 256) ∧
    (∀ o0 : DiffusePathTracer, findParam o0.params "maxDepth".toList = none →
      o0.commit.m_maxDepth = 5) ∧
    (∀ v0 : SciVis, findParam v0.params "ambientSamples".toList = none →
      v0.commit.m_aoSamples = 0) := by
  refine ⟨?_, ?_, ?_, ?_⟩
  · simp only [DiffusePathTracer.commit, Renderer.commit, getParam_int, hd]
    exact std_clamp_int d 1 256 (by decide)
  · simp only [SciVis.commit, Renderer.commit, getParam_int, ha]
    exact std_clamp_int a 0 256 (by decide)
  · intro o0 h0
    simp only [DiffusePathTracer.commit, Renderer.commit, getParam_int, h0]
    decide
  · intro v0 h0
    simp only [SciVis.commit, Renderer.commit, getParam_int, h0]
    decide

/-- C3, instance: pending `maxDepth = 1000` is stored as `256`, pending
`ambientSamples = -7` as `0`. -/
theorem C3_integer_clamps_witness :
    findParam (DiffusePathTracer.withMaxDepth 1000).params "maxDepth".toList
      = some (.int32 1000) ∧
    findParam (SciVis.withAmbientSamples (-7)).params "ambientSamples".toList
      = some (.int32 (-7)) ∧
    (DiffusePathTracer.withMaxDepth 1000).commit.m_maxDepth = 256 ∧
    (SciVis.withAmbientSamples (-7)).commit.m_aoSamples = 0 :=
  ⟨by decide, by decide,
    (C3_integer_clamps (DiffusePathTracer.withMaxDepth 1000) (SciVis.withAmbientSamples (-7))
      1000 (-7) (by decide) (by decide)).1.trans (by norm_num),
    (C3_integer_clamps (DiffusePathTracer.withMaxDepth 1000) (SciVis.withAmbientSamples (-7))
      1000 (-7) (by decide) (by decide)).2.1.trans (by norm_num)⟩

/-- C4 (the code at the failing input, and the part that holds): the descriptor of `R`
declares minimum 0 and maximum 1, yet `DiffusePathTracer::commit` with pending `R = 2`
stores 2.  For every pending store the committed `maxDepth` lies in [1, 256], and the
committed `lightFalloff`, `ambientSamples` and each channel of `ambientColor` of SciVis
lie in [0, 1], [0, 256] and [0, 1]. -/
theorem C4_commit_declared_ranges (init : MemberInits) :
    DiffusePathTracer.getParameterInfo (fun p _ _ => some p) "R".toList ANARI_FLOAT32
        "maximum".toList ANARI_FLOAT32
      = some ⟨false, "per-bounce energy falloff factor".toList, .float32 (1 / 2),
          some (.float32 0), some (.float32 1)⟩ ∧
    (DiffusePathTracer.withR init 2).commit.m_R = 2 ∧
    ¬ (DiffusePathTracer.withR init 2).commit.m_R ≤ 1 ∧
    (∀ o : DiffusePathTracer, 1 ≤ o.commit.m_maxDepth ∧ o.commit.m_maxDepth ≤ 256) ∧
    (∀ v : SciVis, (0 ≤ v.commit.m_lightFalloff ∧ v.commit.m_lightFalloff ≤ 1) ∧
      (0 ≤ v.commit.m_aoSamples ∧ v.commit.m_aoSamples ≤ 256) ∧
      (0 ≤ v.commit.m_aoColor.x ∧ v.commit.m_aoColor.x ≤ 1) ∧
      (0 ≤ v.commit.m_aoColor.y ∧ v.commit.m_aoColor.y ≤ 1) ∧
      (0 ≤ v.commit.m_aoColor.z ∧ v.commit.m_aoColor.z ≤ 1)) := by
  have hR : (DiffusePathTracer.withR init 2).commit.m_R = 2 := by
    simp [DiffusePathTracer.commit, Renderer.commit, DiffusePathTracer.withR, getParam_float,
      findParam, setParam]
  refine ⟨by simp [DiffusePathTracer.getParameterInfo], hR, by rw [hR]; norm_num, ?_, ?_⟩
  · intro o
    exact std_clamp_mem _ 1 256 (by decide)
  · intro v
    exact ⟨std_clamp_mem _ 0 1 (by norm_num), std_clamp_mem _ 0 256 (by decide),
      glm_clamp1_mem _ 0 1 (by norm_num), glm_clamp1_mem _ 0 1 (by norm_num),
      glm_clamp1_mem _ 0 1 (by norm_num)⟩

/-! ## C7: subtype aliases -/

/-- C7: the two names of the path-tracer group and the three names of the scivis group are
indistinguishable: each name of a group makes `make_renderer` construct the same freshly
constructed object of the group's class, with no parameter set; `Renderer::getParameters`
returns the same list for each name of a group; and a commit with no parameter set stores
background colour (1,1,1,1), pixel samples 1 and the defaults of the class (maxDepth 5 and
R 0.5; lightFalloff 0.25, ambientSamples 0, ambientColor (1,1,1), ambientIntensity 1). -/
theorem C7_aliases_indistinguishable (init : MemberInits) :
    (make_renderer init "diffuse_pathtracer".toList
        = some (.DiffusePathTracer (DiffusePathTracer.new init)) ∧
      make_renderer init "dpt".toList
        = some (.DiffusePathTracer (DiffusePathTracer.new init)) ∧
      (DiffusePathTracer.new init).params = []) ∧
    (make_renderer init "scivis".toList = some (.SciVis (SciVis.new init)) ∧
      make_renderer init "sv".toList = some (.SciVis (SciVis.new init)) ∧
      make_renderer init "default".toList = some (.SciVis (SciVis.new init)) ∧
      (SciVis.new init).params = []) ∧
    (Renderer.getParameters "diffuse_pathtracer".toList = Renderer.getParameters "dpt".toList ∧
      Renderer.getParameters "dpt".toList ≠ none) ∧
    (Renderer.getParameters "scivis".toList = Renderer.getParameters "sv".toList ∧
      Renderer.getParameters "sv".toList = Renderer.getParameters "default".toList ∧
      Renderer.getParameters "default".toList ≠ none) ∧
    ((DiffusePathTracer.new init).commit.m_bgColor = ⟨1, 1, 1, 1⟩ ∧
      (DiffusePathTracer.new init).commit.m_spp = 1 ∧
      (DiffusePathTracer.new init).commit.m_maxDepth = 5 ∧
      (DiffusePathTracer.new init).commit.m_R = 1 / 2) ∧
    ((SciVis.new init).commit.m_bgColor = ⟨1, 1, 1, 1⟩ ∧
      (SciVis.new init).commit.m_spp = 1 ∧
      (SciVis.new init).commit.m_lightFalloff = 1 / 4 ∧
      (SciVis.new init).commit.m_aoSamples = 0 ∧
      (SciVis.new init).commit.m_aoColor = ⟨1, 1, 1⟩ ∧
      (SciVis.new init).commit.m_aoIntensity = 1) := by
  refine ⟨⟨rfl, rfl, rfl⟩, ⟨rfl, rfl, rfl, rfl⟩, ⟨rfl, by decide⟩, ⟨rfl, rfl, by decide⟩,
    ⟨rfl, rfl, rfl, rfl⟩, ⟨rfl, rfl, ?_, rfl, ?_, rfl⟩⟩
  · simp only [SciVis.commit, Renderer.commit, SciVis.new, Renderer.new, getParam_float,
      findParam, List.find?_nil, Option.map_none', std_clamp]
    norm_num
  · simp only [SciVis.commit, Renderer.commit, SciVis.new, Renderer.new, getParam_vec3,
      findParam, List.find?_nil, Option.map_none', glm_clamp, glm_clamp1, Vec3.splat]
    norm_num

/-! ## C8: debug method names -/

/-- C8: for every non-empty underscore-free `p` and each of the ten debug method names
`m`, the name `p ++ "_" ++ m` is none of the recognised names, `make_renderer` returns a
Debug variant whose `"method"` parameter is `m`, `Debug::commit` then stores the
enumerator that `m` stands for, and `populateFrameData` writes that enumerator's integer
value. -/
theorem C8_debug_method_end_to_end {β : Type} (init : MemberInits) (toInt : Method → Int)
    (fd : FrameGPUData β) (p m : Str) (meth : Method)
    (hp : p ≠ []) (hpf : '_' ∉ p) (hm : (m, meth) ∈ debugMethodTable) :
    p ++ '_' :: m ∉ recognisedNames ∧
    ∃ d : Debug, make_renderer init (p ++ '_' :: m) = some (.Debug d) ∧
      findParam d.params "method".toList = some (.string m) ∧
      d.commit.m_method = meth ∧
      (d.commit.populateFrameData toInt fd).renderer.params = .debug (toInt meth) := by
  obtain ⟨hm1, hm2, hm3, hm4⟩ := debugMethodTable_spec (m, meth) hm
  have htok := tokensOf_two p m hp hpf hm1 hm2
  have hun := unrecognised_of_two_tokens _ p m htok hm3
  refine ⟨hun, _, make_renderer_unrecognised init _ hun, ?_⟩
  rw [htok]
  have hfind : findParam ((Debug.new init).setParam "method".toList (.string m)).params
      "method".toList = some (.string m) := by
    simp [Debug.setParam, Debug.new, Renderer.new, setParam, findParam]
  refine ⟨hfind, ?_, ?_⟩
  · show methodFromString (getParam_string _ _ _) = meth
    simp only [Renderer.commit, getParam_string, hfind, hm4]
  · show RendererParametersGPUData.debug (toInt (methodFromString (getParam_string _ _ _)))
      = .debug (toInt meth)
    simp only [Renderer.commit, getParam_string, hfind, hm4]

/-- C8, instance: the name `"foo_Ng.abs"` gives the method parameter `"Ng.abs"`, the
committed method `NG_ABS`, and the frame block receives the integer value of `NG_ABS`. -/
theorem C8_debug_method_end_to_end_witness :
    "foo".toList ≠ [] ∧ '_' ∉ "foo".toList ∧
    ("Ng.abs".toList, Method.NG_ABS) ∈ debugMethodTable ∧
    "foo".toList ++ '_' :: "Ng.abs".toList = "foo_Ng.abs".toList ∧
    ("foo".toList ++ '_' :: "Ng.abs".toList ∉ recognisedNames ∧
      ∃ d : Debug, make_renderer MemberInits.sample ("foo".toList ++ '_' :: "Ng.abs".toList)
          = some (.Debug d) ∧
        findParam d.params "method".toList = some (.string "Ng.abs".toList) ∧
        d.commit.m_method = Method.NG_ABS ∧
        (d.commit.populateFrameData (fun _ => 4) (⟨⟨⟨0, 0, 0, 0⟩, .unset⟩, ()⟩ :
            FrameGPUData Unit)).renderer.params
          = .debug ((fun _ => 4) Method.NG_ABS)) :=
  ⟨by decide, by decide, by decide, by decide,
    C8_debug_method_end_to_end MemberInits.sample (fun _ => 4) _ "foo".toList
      "Ng.abs".toList Method.NG_ABS (by decide) (by decide) (by decide)⟩

/-! ## C10: commit is idempotent -/

/-- C10: for the `Renderer` base and for `DiffusePathTracer`, `SciVis` and `Debug`,
committing twice in a row leaves exactly the state that one commit leaves, and commit
does not change the pending parameter store. -/
theorem C10_commit_idempotent :
    (∀ r : Renderer, r.commit.commit = r.commit ∧ r.commit.params = r.params) ∧
    (∀ o : DiffusePathTracer, o.commit.commit = o.commit ∧ o.commit.params = o.params) ∧
    (∀ o : SciVis, o.commit.commit = o.commit ∧ o.commit.params = o.params) ∧
    (∀ o : Debug, o.commit.commit = o.commit ∧ o.commit.params = o.params) :=
  ⟨fun _ => ⟨rfl, rfl⟩, fun _ => ⟨rfl, rfl⟩, fun _ => ⟨rfl, rfl⟩, fun _ => ⟨rfl, rfl⟩⟩

/-! ## C5: records of the binding table -/

/-- C5: for miss names of length N and hit-group descriptors of length M (both below
2^31, the range of the `int` loop index), if no OptiX call made by `initOptixPipeline`
fails, then: one raygen program group and one raygen record exist; there are N miss and M
hit-group groups and records; the groups were created, in order, from a raygen
descriptor (module `om`, entry `__raygen__`), for each miss name a miss descriptor with
module `om` and that name as entry point, and for each hit-group descriptor a hit-group
descriptor with module `om` and its closest-hit name, its any-hit name with module `om`
when that name is not empty and no any-hit stage otherwise, and the custom intersector
module with entry `__intersection__`; record `i` of each region was packed from group `i`
of that region, which is the group created for name `i`; the three buffers were uploaded
and the binding table holds their addresses, the counts N and M, and the stride
`sizeof(SBTRecord)` = 32 for both regions; and no fatal message was reported. -/
theorem C5_pipeline_records (ox : Optix) (state : DeviceGlobalState) (om : OptixModule)
    (missNames : List Str) (hitgroupNames : List HitgroupFunctionNames) (r : Renderer)
    (log : List Event)
    (hN : missNames.length < 2 ^ 31) (hM : hitgroupNames.length < 2 ^ 31)
    (hok : ∀ e ∈ eventsSince log
      (initOptixPipeline ox state om missNames hitgroupNames (r, log)).2,
      e.isFailedCall = false) :
    ∃ (r' : Renderer) (new : List Event),
      initOptixPipeline ox state om missNames hitgroupNames (r, log) = (r', log ++ new) ∧
      r'.m_raygenPGs.length = 1 ∧ r'.m_raygenRecordsBuffer.contents.length = 1 ∧
      (createdGroups new).countP (fun x => x.1.isRaygen) = 1 ∧
      r'.m_missPGs.length = missNames.length ∧
      r'.m_missRecordsBuffer.contents.length = missNames.length ∧
      r'.m_hitgroupPGs.length = hitgroupNames.length ∧
      r'.m_hitgroupRecordsBuffer.contents.length = hitgroupNames.length ∧
      createdGroups new
        = (OptixProgramGroupDesc.raygen om "__raygen__".toList ::
            (missNames.map (fun mn => OptixProgramGroupDesc.miss om mn)
              ++ hitgroupNames.map (fun hgn =>
                OptixProgramGroupDesc.hitgroup om hgn.closestHit
                  (if hgn.anyHit ≠ [] then om else none)
                  (if hgn.anyHit ≠ [] then some hgn.anyHit else none)
                  state.intersectionModules.customIntersectors
                  "__intersection__".toList))).zip
          (r'.m_raygenPGs ++ r'.m_missPGs ++ r'.m_hitgroupPGs) ∧
      linkedPipelines new
        = [(r'.m_raygenPGs ++ r'.m_missPGs ++ r'.m_hitgroupPGs, r'.m_pipeline)] ∧
      packedRecords new
        = (r'.m_raygenPGs ++ r'.m_missPGs ++ r'.m_hitgroupPGs).zip
          (r'.m_raygenRecordsBuffer.contents ++ r'.m_missRecordsBuffer.contents
            ++ r'.m_hitgroupRecordsBuffer.contents) ∧
      uploadedBuffers new
        = [r'.m_raygenRecordsBuffer, r'.m_missRecordsBuffer, r'.m_hitgroupRecordsBuffer] ∧
      (∀ i mn, missNames[i]? = some mn → ∃ pg rec,
        r'.m_missPGs[i]? = some pg ∧ r'.m_missRecordsBuffer.contents[i]? = some rec ∧
        (createdGroups new)[1 + i]? = some (OptixProgramGroupDesc.miss om mn, pg) ∧
        (packedRecords new)[1 + i]? = some (pg, rec)) ∧
      (∀ j hgn, hitgroupNames[j]? = some hgn → ∃ pg rec,
        r'.m_hitgroupPGs[j]? = some pg ∧
        r'.m_hitgroupRecordsBuffer.contents[j]? = some rec ∧
        (hgn.anyHit = [] → (createdGroups new)[1 + missNames.length + j]?
          = some (OptixProgramGroupDesc.hitgroup om hgn.closestHit none none
              state.intersectionModules.customIntersectors "__intersection__".toList, pg)) ∧
        (hgn.anyHit ≠ [] → (createdGroups new)[1 + missNames.length + j]?
          = some (OptixProgramGroupDesc.hitgroup om hgn.closestHit om (some hgn.anyHit)
              state.intersectionModules.customIntersectors "__intersection__".toList, pg)) ∧
        (packedRecords new)[1 + missNames.length + j]? = some (pg, rec)) ∧
      r'.m_sbt.raygenRecord = r'.m_raygenRecordsBuffer.ptr ∧
      r'.m_sbt.missRecordBase = r'.m_missRecordsBuffer.ptr ∧
      r'.m_sbt.hitgroupRecordBase = r'.m_hitgroupRecordsBuffer.ptr ∧
      r'.m_sbt.missRecordCount = missNames.length ∧
      r'.m_sbt.hitgroupRecordCount = hitgroupNames.length ∧
      r'.m_sbt.missRecordStrideInBytes = sizeof_SBTRecord ∧
      r'.m_sbt.hitgroupRecordStrideInBytes = sizeof_SBTRecord ∧
      sizeof_SBTRecord = 32 ∧
      new.countP Event.isFatal = 0 := by
  obtain ⟨pg, mpgs, hpgs, pl, rrec, mrecs, hrecs, rptr, mptr, hptr, h1, h2, h3, h4, h5, h6⟩ :=
    initOptixPipeline_spec ox state om missNames hitgroupNames r log
  obtain ⟨e0, e1, e2, e3, e4, e5⟩ := h6.eventsSince
  generalize eventsSince log (initOptixPipeline ox state om missNames hitgroupNames (r, log)).2
    = new at *
  have hfail : new.countP Event.isFailedCall = 0 := by
    rw [List.countP_eq_zero]
    intro e he
    simp [hok e he]
  have hu : ∀ n, n < 2 ^ 31 → toUnsignedInt n = n := by
    intro n hn
    exact Nat.mod_eq_of_lt (by omega)
  refine ⟨_, new, Prod.ext h5 e0, rfl, rfl, ?_, h1, h3, h2, h4, ?_, ?_, ?_, e4, ?_, ?_,
    rfl, rfl, rfl, ?_, ?_, ?_, ?_, by decide, ?_⟩
  · rw [e1, List.countP_cons, List.countP_append,
      countP_isRaygen_zip _ _ (by simp [missDesc, OptixProgramGroupDesc.isRaygen]),
      countP_isRaygen_zip _ _ (by simp [hitgroupDesc, OptixProgramGroupDesc.isRaygen])]
    rfl
  · rw [e1]
    change _ = (raygenDesc om :: (missNames.map (missDesc om)
      ++ hitgroupNames.map (hitgroupDesc state om))).zip _
    simp [List.zip_append, h1]
  · rw [e2]; simp
  · rw [e3]
    simp [List.zip_append (show mpgs.length = mrecs.length by rw [h1, h3])]
  · intro i mn hi
    have hlt : i < missNames.length := by
      rcases Nat.lt_or_ge i missNames.length with h | h
      · exact h
      · rw [List.getElem?_eq_none h] at hi; cases hi
    obtain ⟨p, hp⟩ := getElem?_of_length mpgs i (by omega)
    obtain ⟨rec, hrec⟩ := getElem?_of_length mrecs i (by omega)
    refine ⟨p, rec, hp, hrec, ?_, ?_⟩
    · rw [e1, Nat.add_comm 1 i, List.getElem?_cons_succ,
        List.getElem?_append_left (by simp only [List.length_zip, List.length_map, h1, h3, Nat.min_self]; omega)]
      exact getElem?_zip_of _ _ i _ _ (by simp [hi, missDesc]) hp
    · rw [e3, Nat.add_comm 1 i, List.getElem?_cons_succ,
        List.getElem?_append_left (by simp only [List.length_zip, List.length_map, h1, h3, Nat.min_self]; omega)]
      exact getElem?_zip_of _ _ i _ _ hp hrec
  · intro j hgn hj
    have hlt : j < hitgroupNames.length := by
      rcases Nat.lt_or_ge j hitgroupNames.length with h | h
      · exact h
      · rw [List.getElem?_eq_none h] at hj; cases hj
    obtain ⟨p, hp⟩ := getElem?_of_length hpgs j (by omega)
    obtain ⟨rec, hrec⟩ := getElem?_of_length hrecs j (by omega)
    have hcreated : (createdGroups new)[1 + missNames.length + j]?
        = some (hitgroupDesc state om hgn, p) := by
      rw [e1, show 1 + missNames.length + j = (missNames.length + j) + 1 by omega,
        List.getElem?_cons_succ, List.getElem?_append_right (by simp only [List.length_zip, List.length_map, h1, h3, Nat.min_self]; omega)]
      simp only [List.length_zip, List.length_map, h1, Nat.min_self, Nat.add_sub_cancel_left]
      exact getElem?_zip_of _ _ j _ _ (by simp [hj]) hp
    refine ⟨p, rec, hp, hrec, ?_, ?_, ?_⟩
    · intro hah
      rw [hcreated]
      simp [hitgroupDesc, hah]
    · intro hah
      rw [hcreated]
      simp [hitgroupDesc, hah]
    · rw [e3, show 1 + missNames.length + j = (missNames.length + j) + 1 by omega,
        List.getElem?_cons_succ, List.getElem?_append_right (by simp only [List.length_zip, List.length_map, h1, h3, Nat.min_self]; omega)]
      simp only [List.length_zip, h1, h3, Nat.min_self, Nat.add_sub_cancel_left]
      exact getElem?_zip_of _ _ j _ _ hp hrec
  · show toUnsignedInt mrecs.length = missNames.length
    rw [h3]; exact hu _ hN
  · show toUnsignedInt hrecs.length = hitgroupNames.length
    rw [h4]; exact hu _ hM
  · exact Nat.mod_eq_of_lt (by decide)
  · exact Nat.mod_eq_of_lt (by decide)
  · rw [e5, hfail]

/-- C5, instance: the miss names and hit-group descriptors of SciVis on a device where
every call succeeds. -/
theorem C5_pipeline_records_witness :
    g_scivisMissNames.length < 2 ^ 31 ∧ g_scivisHitNames.length < 2 ^ 31 ∧
    (∀ e ∈ eventsSince []
      (initOptixPipeline Optix.succeeding DeviceGlobalState.sample (some 15)
        g_scivisMissNames g_scivisHitNames (Renderer.new MemberInits.sample, [])).2,
      e.isFailedCall = false) ∧
    ∃ (r' : Renderer) (new : List Event),
      initOptixPipeline Optix.succeeding DeviceGlobalState.sample (some 15)
        g_scivisMissNames g_scivisHitNames (Renderer.new MemberInits.sample, [])
        = (r', [] ++ new) ∧
      r'.m_raygenPGs.length = 1 ∧ r'.m_raygenRecordsBuffer.contents.length = 1 ∧
      r'.m_sbt.missRecordCount = 2 ∧ r'.m_sbt.hitgroupRecordCount = 2 ∧
      r'.m_sbt.missRecordStrideInBytes = 32 ∧ r'.m_sbt.hitgroupRecordStrideInBytes = 32 ∧
      new.countP Event.isFatal = 0 := by
  refine ⟨by decide, by decide, by decide, ?_⟩
  obtain ⟨r', new, h0, h1, h2, _, _, _, _, _, _, _, _, _, _, _, _, _, _, h3, h4, h5, h6, h7,
      h8⟩ :=
    C5_pipeline_records Optix.succeeding DeviceGlobalState.sample (some 15)
      g_scivisMissNames g_scivisHitNames (Renderer.new MemberInits.sample) []
      (by decide) (by decide) (by decide)
  exact ⟨r', new, h0, h1, h2, h3, h4, h5.trans h7, h6.trans h7, h8⟩

/-! ## C6: the scivis scenario -/

/-- C6: `make_renderer` builds a SciVis object for `"scivis"`; for a SciVis object with
pending `ambientSamples = 300` and `lightFalloff = -1`, commit stores 256 and 0; building
its pipeline (whatever the device answers) leaves the committed values in place and gives a
binding table with 2 miss records and 2 hit-group records; five program groups are created,
in order: raygen, two miss groups `__miss__`, hit group 0 with closest-hit
`__closesthit__primary` and no any-hit stage, hit group 1 with closest-hit
`__closesthit__shadow` and any-hit `__anyhit__shadow`.  In general the descriptor of a hit
group has an any-hit stage exactly when the any-hit name is not empty. -/
theorem C6_scivis_end_to_end (ox : Optix) (state : DeviceGlobalState) (o : SciVis)
    (log : List Event)
    (ha : findParam o.params "ambientSamples".toList = some (.int32 300))
    (hl : findParam o.params "lightFalloff".toList = some (.float32 (-1))) :
    (∀ init, make_renderer init "scivis".toList = some (.SciVis (SciVis.new init))) ∧
    o.commit.m_aoSamples = 256 ∧ o.commit.m_lightFalloff = 0 ∧
    (∃ (o' : SciVis) (new : List Event),
      SciVis.initOptixPipeline ox state (o.commit, log) = (o', log ++ new) ∧
      o'.m_aoSamples = 256 ∧ o'.m_lightFalloff = 0 ∧
      o'.m_sbt.missRecordCount = 2 ∧ o'.m_sbt.hitgroupRecordCount = 2 ∧
      o'.m_missRecordsBuffer.contents.length = 2 ∧
      o'.m_hitgroupRecordsBuffer.contents.length = 2 ∧
      (createdGroups new).map Prod.fst
        = [.raygen state.rendererModules.scivis "__raygen__".toList,
          .miss state.rendererModules.scivis "__miss__".toList,
          .miss state.rendererModules.scivis "__miss__".toList,
          .hitgroup state.rendererModules.scivis "__closesthit__primary".toList none none
            state.intersectionModules.customIntersectors "__intersection__".toList,
          .hitgroup state.rendererModules.scivis "__closesthit__shadow".toList
            state.rendererModules.scivis (some "__anyhit__shadow".toList)
            state.intersectionModules.customIntersectors "__intersection__".toList] ∧
      (createdGroups new).map Prod.snd = o'.m_raygenPGs ++ o'.m_missPGs ++ o'.m_hitgroupPGs ∧
      o'.m_hitgroupPGs.length = 2) ∧
    (∀ (st : DeviceGlobalState) (om : OptixModule) (hgn : HitgroupFunctionNames),
      (hitgroupDesc st om hgn).closestHitStage = some hgn.closestHit ∧
      ((hitgroupDesc st om hgn).anyHitStage.isSome = true ↔ hgn.anyHit ≠ []) ∧
      ∀ ah, (hitgroupDesc st om hgn).anyHitStage = some ah → ah = hgn.anyHit) := by
  have hao : o.commit.m_aoSamples = 256 := by
    simp only [SciVis.commit, Renderer.commit, getParam_int, ha]
    decide
  have hlf : o.commit.m_lightFalloff = 0 := by
    simp only [SciVis.commit, Renderer.commit, getParam_float, hl, std_clamp]
    norm_num
  refine ⟨fun _ => rfl, hao, hlf, ?_, ?_⟩
  · obtain ⟨pg, mpgs, hpgs, pl, rrec, mrecs, hrecs, rptr, mptr, hptr, h1, h2, h3, h4, h5,
      h6⟩ := initOptixPipeline_spec ox state (SciVis.optixModule state) SciVis.missSbtNames
        SciVis.hitgroupSbtNames o.commit.toRenderer log
    obtain ⟨e0, e1, _, _, _, _⟩ := h6.eventsSince
    generalize eventsSince log (initOptixPipeline ox state (SciVis.optixModule state)
      SciVis.missSbtNames SciVis.hitgroupSbtNames (o.commit.toRenderer, log)).2 = new at *
    have hm : mpgs.length = 2 := h1
    have hh : hpgs.length = 2 := h2
    obtain ⟨m0, m1, rfl⟩ : ∃ a b, mpgs = [a, b] := by
      match mpgs, hm with
      | [a, b], _ => exact ⟨a, b, rfl⟩
    obtain ⟨g0, g1, rfl⟩ : ∃ a b, hpgs = [a, b] := by
      match hpgs, hh with
      | [a, b], _ => exact ⟨a, b, rfl⟩
    have hbase : ∀ x : SciVis × List Event,
        (SciVis.initOptixPipeline ox state x).1.toRenderer
          = (initOptixPipeline ox state (SciVis.optixModule state) SciVis.missSbtNames
              SciVis.hitgroupSbtNames (x.1.toRenderer, x.2)).1 := fun _ => rfl
    refine ⟨(SciVis.initOptixPipeline ox state (o.commit, log)).1, new, Prod.ext rfl e0,
      hao, hlf, ?_, ?_, ?_, ?_, ?_, ?_, ?_⟩
    · rw [hbase, h5]
      show toUnsignedInt mrecs.length = 2
      rw [h3]; rfl
    · rw [hbase, h5]
      show toUnsignedInt hrecs.length = 2
      rw [h4]; rfl
    · rw [hbase, h5]; exact h3
    · rw [hbase, h5]; exact h4
    · rw [e1]; rfl
    · rw [e1, hbase, h5]; rfl
    · rw [hbase, h5]; rfl
  · intro st om hgn
    refine ⟨rfl, ?_, ?_⟩
    · by_cases h : hgn.anyHit = [] <;>
        simp [hitgroupDesc, OptixProgramGroupDesc.anyHitStage, h]
    · intro ah
      by_cases h : hgn.anyHit = [] <;>
        simp [hitgroupDesc, OptixProgramGroupDesc.anyHitStage, h]
      intro h'
      exact h'.symm

/-- C6, instance: the object built for `"scivis"` with `ambientSamples = 300` and
`lightFalloff = -1`, on a device where every call succeeds. -/
theorem C6_scivis_end_to_end_witness :
    findParam SciVis.scenario.params "ambientSamples".toList = some (.int32 300) ∧
    findParam SciVis.scenario.params "lightFalloff".toList = some (.float32 (-1)) ∧
    SciVis.scenario.commit.m_aoSamples = 256 ∧ SciVis.scenario.commit.m_lightFalloff = 0 ∧
    ∃ (o' : SciVis) (new : List Event),
      SciVis.initOptixPipeline Optix.succeeding DeviceGlobalState.sample
        (SciVis.scenario.commit, []) = (o', [] ++ new) ∧
      o'.m_sbt.missRecordCount = 2 ∧ o'.m_sbt.hitgroupRecordCount = 2 := by
  have hA : findParam SciVis.scenario.params "ambientSamples".toList = some (.int32 300) := by
    decide
  have hL : findParam SciVis.scenario.params "lightFalloff".toList
      = some (.float32 (-1)) := by
    simp [SciVis.scenario, SciVis.setParam, SciVis.new, Renderer.new, setParam, findParam]
  obtain ⟨_, h1, h2, ⟨o', new, h3, _, _, h4, h5, _⟩, _⟩ :=
    C6_scivis_end_to_end Optix.succeeding DeviceGlobalState.sample SciVis.scenario [] hA hL
  exact ⟨hA, hL, h1, h2, o', new, h3, h4, h5⟩

/-! ## C9: failures during pipeline assembly -/

/-- C9 (as stated, refuted): on a device where only the header pack of the raygen group
fails, `initOptixPipeline` on a fresh renderer (null pipeline handle, all-zero binding
table) with the SciVis names reports the fatal message right after the failed call, and
then goes on: it uploads the raygen buffer, packs the four remaining headers and uploads
the two other buffers; afterwards the pipeline handle is not null and the binding table
has been written. -/
theorem C9_counterexample :
    (Renderer.new MemberInits.sample).m_pipeline = none ∧
    (Renderer.new MemberInits.sample).m_sbt = ⟨0, 0, 0, 0, 0, 0, 0⟩ ∧
    (initOptixPipeline Optix.packFails DeviceGlobalState.sample (some 15)
      g_scivisMissNames g_scivisHitNames (Renderer.new MemberInits.sample, [])).2[6]?
      = some (.sbtRecordPackHeader (some 1) (OPTIX_ERROR 7005) []) ∧
    (initOptixPipeline Optix.packFails DeviceGlobalState.sample (some 15)
      g_scivisMissNames g_scivisHitNames (Renderer.new MemberInits.sample, [])).2[7]?
      = some (.message .ANARI_SEVERITY_FATAL_ERROR "%s".toList) ∧
    (initOptixPipeline Optix.packFails DeviceGlobalState.sample (some 15)
      g_scivisMissNames g_scivisHitNames (Renderer.new MemberInits.sample, [])).2.drop 8
      = [.upload [⟨[]⟩] 4104,
        .sbtRecordPackHeader (some 2) OPTIX_SUCCESS [2],
        .sbtRecordPackHeader (some 3) OPTIX_SUCCESS [3],
        .upload [⟨[2]⟩, ⟨[3]⟩] 4107,
        .sbtRecordPackHeader (some 4) OPTIX_SUCCESS [4],
        .sbtRecordPackHeader (some 5) OPTIX_SUCCESS [5],
        .upload [⟨[4]⟩, ⟨[5]⟩] 4110] ∧
    (initOptixPipeline Optix.packFails DeviceGlobalState.sample (some 15)
      g_scivisMissNames g_scivisHitNames (Renderer.new MemberInits.sample, [])).1.m_pipeline
      = some 6 ∧
    (initOptixPipeline Optix.packFails DeviceGlobalState.sample (some 15)
      g_scivisMissNames g_scivisHitNames (Renderer.new MemberInits.sample, [])).1.m_sbt
      = ⟨4104, 4107, 32, 2, 4110, 32, 2⟩ := by
  refine ⟨by decide, by decide, by decide, by decide, by decide, by decide, by decide⟩

/-- C9 (amended): whatever the device answers, `initOptixPipeline` reports exactly one
message of fatal severity for each program-group creation, pipeline link or header pack
that returns a non-success result (so at least one if any of them fails, and none if none
fails), and it always runs every assembly step: it creates one group per descriptor, links
all groups once and stores the handle the link call left as the pipeline handle, packs one
header per group, uploads the three buffers and writes the base addresses, strides and
record counts of the binding table. -/
theorem C9_failure_reported_assembly_continues (ox : Optix) (state : DeviceGlobalState)
    (om : OptixModule) (missNames : List Str) (hitgroupNames : List HitgroupFunctionNames)
    (r : Renderer) (log : List Event) :
    ∃ (r' : Renderer) (new : List Event),
      initOptixPipeline ox state om missNames hitgroupNames (r, log) = (r', log ++ new) ∧
      new.countP Event.isFatal = new.countP Event.isFailedCall ∧
      ((∃ e ∈ new, e.isFailedCall = true) ↔ ∃ e ∈ new, e.isFatal = true) ∧
      (createdGroups new).map Prod.fst
        = raygenDesc om :: (missNames.map (missDesc om)
            ++ hitgroupNames.map (hitgroupDesc state om)) ∧
      linkedPipelines new
        = [(r'.m_raygenPGs ++ r'.m_missPGs ++ r'.m_hitgroupPGs, r'.m_pipeline)] ∧
      (packedRecords new).map Prod.fst
        = r'.m_raygenPGs ++ r'.m_missPGs ++ r'.m_hitgroupPGs ∧
      (r'.m_raygenPGs ++ r'.m_missPGs ++ r'.m_hitgroupPGs).length
        = 1 + missNames.length + hitgroupNames.length ∧
      uploadedBuffers new
        = [r'.m_raygenRecordsBuffer, r'.m_missRecordsBuffer, r'.m_hitgroupRecordsBuffer] ∧
      r'.m_sbt = ⟨r'.m_raygenRecordsBuffer.ptr, r'.m_missRecordsBuffer.ptr,
        toUnsignedInt sizeof_SBTRecord, toUnsignedInt missNames.length,
        r'.m_hitgroupRecordsBuffer.ptr, toUnsignedInt sizeof_SBTRecord,
        toUnsignedInt hitgroupNames.length⟩ := by
  obtain ⟨pg, mpgs, hpgs, pl, rrec, mrecs, hrecs, rptr, mptr, hptr, h1, h2, h3, h4, h5, h6⟩ :=
    initOptixPipeline_spec ox state om missNames hitgroupNames r log
  obtain ⟨e0, e1, e2, e3, e4, e5⟩ := h6.eventsSince
  generalize eventsSince log (initOptixPipeline ox state om missNames hitgroupNames (r, log)).2
    = new at *
  refine ⟨_, new, Prod.ext h5 e0, e5, ?_, ?_, ?_, ?_, ?_, e4, ?_⟩
  · rw [← List.countP_pos_iff, ← List.countP_pos_iff, e5]
  · rw [e1]
    simp only [List.map_cons, List.map_append]
    rw [List.map_fst_zip _ _ (by simp [h1]), List.map_fst_zip _ _ (by simp [h2])]
  · rw [e2]; simp
  · rw [e3]
    simp only [List.map_cons, List.map_append]
    rw [List.map_fst_zip _ _ (by simp [h1, h3]), List.map_fst_zip _ _ (by simp [h2, h4])]
    simp
  · simp [h1, h2]; omega
  · show OptixShaderBindingTable.mk _ _ _ _ _ _ _ = _
    rw [h3, h4]

/-! ## C15: the factory never fails -/

/-- C15: for every string `s`, `make_renderer` returns an object; the object is of class
`Debug` exactly when `s` is none of the seven recognised names; and for such `s` the split
of `s` on underscores returns some tokens, the `"method"` parameter is set exactly when
there are at least two tokens, it then equals the second token, and no other parameter is
set. -/
theorem C15_make_renderer_total (init : MemberInits) (s : Str) :
    ∃ o : RendererObject, make_renderer init s = some o ∧
      (o.isDebug = true ↔ s ∉ recognisedNames) ∧
      (s ∉ recognisedNames →
        ∃ (d : Debug) (names : List Str), o = .Debug d ∧
          splitString s "_".toList = some names ∧
          ((findParam d.params "method".toList).isSome = true ↔ 2 ≤ names.length) ∧
          (∀ m, names[1]? = some m → d.params = [("method".toList, .string m)]) ∧
          (names.length < 2 → d.params = [])) := by
  by_cases hs : s ∈ recognisedNames
  · have hmem := hs
    simp only [recognisedNames, List.mem_cons, List.mem_singleton, List.mem_nil_iff,
      or_false] at hmem
    rcases hmem with rfl | rfl | rfl | rfl | rfl | rfl | rfl
    · exact ⟨_, rfl, ⟨fun h => by simp [RendererObject.isDebug] at h, fun h => absurd hs h⟩,
        fun h => absurd hs h⟩
    · exact ⟨_, rfl, ⟨fun h => by simp [RendererObject.isDebug] at h, fun h => absurd hs h⟩,
        fun h => absurd hs h⟩
    · exact ⟨_, rfl, ⟨fun h => by simp [RendererObject.isDebug] at h, fun h => absurd hs h⟩,
        fun h => absurd hs h⟩
    · exact ⟨_, rfl, ⟨fun h => by simp [RendererObject.isDebug] at h, fun h => absurd hs h⟩,
        fun h => absurd hs h⟩
    · exact ⟨_, rfl, ⟨fun h => by simp [RendererObject.isDebug] at h, fun h => absurd hs h⟩,
        fun h => absurd hs h⟩
    · exact ⟨_, rfl, ⟨fun h => by simp [RendererObject.isDebug] at h, fun h => absurd hs h⟩,
        fun h => absurd hs h⟩
    · exact ⟨_, rfl, ⟨fun h => by simp [RendererObject.isDebug] at h, fun h => absurd hs h⟩,
        fun h => absurd hs h⟩
  · refine ⟨_, make_renderer_unrecognised init s hs, by simp [RendererObject.isDebug, hs],
      fun _ => ⟨_, tokensOf "_".toList s, rfl, splitString_eq s "_".toList, ?_⟩⟩
    rcases tokensOf "_".toList s with _ | ⟨a, _ | ⟨b, l⟩⟩
    · simp [Debug.new, Renderer.new, findParam]
    · simp [Debug.new, Renderer.new, findParam]
    · simp [Debug.setParam, Debug.new, Renderer.new, setParam, findParam]

/-! ## C18: the debug method selector -/

/-- C18: `Debug::commit` stores a method for every pending store.  With `"method"` unset
the committed method is `PRIM_ID`; with `"method"` set to one of the ten names it is the
enumerator the name stands for; with `"method"` set to any other string (for instance
`"primid"` or `"PrimID"`, which differ from `"primID"` in case only) it is `BACKFACE`. -/
theorem C18_debug_commit_total :
    (∀ d : Debug, findParam d.params "method".toList = none →
      d.commit.m_method = .PRIM_ID) ∧
    (∀ (d : Debug) (m : Str) (meth : Method),
      findParam d.params "method".toList = some (.string m) →
      (m, meth) ∈ debugMethodTable → d.commit.m_method = meth) ∧
    (∀ (d : Debug) (m : Str), findParam d.params "method".toList = some (.string m) →
      (∀ x ∈ debugMethodTable, m ≠ x.1) → d.commit.m_method = .BACKFACE) ∧
    debugMethodTable
      = [("primID".toList, .PRIM_ID), ("geomID".toList, .GEOM_ID),
        ("instID".toList, .INST_ID), ("Ng".toList, .NG), ("Ng.abs".toList, .NG_ABS),
        ("Ns".toList, .NS), ("Ns.abs".toList, .NS_ABS), ("uvw".toList, .RAY_UVW),
        ("istri".toList, .IS_TRIANGLE), ("isvol".toList, .IS_VOLUME)] ∧
    methodFromString "primid".toList = .BACKFACE ∧
    methodFromString "PrimID".toList = .BACKFACE ∧
    methodFromString "".toList = .BACKFACE := by
  refine ⟨?_, ?_, ?_, rfl, by decide, by decide, by decide⟩
  · intro d h
    show methodFromString (getParam_string _ _ _) = _
    simp only [Renderer.commit, getParam_string, h]
    decide
  · intro d m meth h hm
    show methodFromString (getParam_string _ _ _) = _
    simp only [Renderer.commit, getParam_string, h]
    exact (debugMethodTable_spec (m, meth) hm).2.2.2
  · intro d m h hm
    show methodFromString (getParam_string _ _ _) = _
    simp only [Renderer.commit, getParam_string, h]
    simp only [debugMethodTable, List.mem_cons, List.mem_singleton, List.mem_nil_iff,
      or_false, forall_eq_or_imp, forall_eq] at hm
    obtain ⟨h1, h2, h3, h4, h5, h6, h7, h8, h9, h10⟩ := hm
    simp only [methodFromString, h1, h2, h3, h4, h5, h6, h7, h8, h9, h10, if_false]

/-! ## C13: the environment override -/

/-- C13: when `VISRTX_OVERRIDE_RENDERER` is set to `o`, `Renderer::createInstance` returns
`make_renderer(o)` bound to the device state, whatever subtype is requested, so any two
requests give equal results; when the variable is unset it returns `make_renderer(s)` bound
to the device state.  In both cases an object is returned and it is bound to `d`. -/
theorem C13_override_ignores_request (init : MemberInits) (d : DeviceGlobalState) :
    (∀ o s1 s2, Renderer.createInstance init (some o) s1 d
      = Renderer.createInstance init (some o) s2 d) ∧
    (∀ o s, Renderer.createInstance init (some o) s d
      = (make_renderer init o).map (fun r => r.setDeviceState d)) ∧
    (∀ s, Renderer.createInstance init none s d
      = (make_renderer init s).map (fun r => r.setDeviceState d)) ∧
    (∀ ov s, ∃ obj, Renderer.createInstance init ov s d = some obj ∧
      obj.base.m_state = some d) := by
  refine ⟨fun _ _ _ => rfl, ?_, ?_, ?_⟩
  · intro o s
    simp only [Renderer.createInstance]
    cases make_renderer init o <;> rfl
  · intro s
    simp only [Renderer.createInstance]
    cases make_renderer init s <;> rfl
  · intro ov s
    cases ov with
    | none =>
      obtain ⟨o, ho⟩ := make_renderer_isSome init s
      exact ⟨_, by simp only [Renderer.createInstance, ho], setDeviceState_m_state o d⟩
    | some v =>
      obtain ⟨o, ho⟩ := make_renderer_isSome init v
      exact ⟨_, by simp only [Renderer.createInstance, ho], setDeviceState_m_state o d⟩

/-! ## C14: frame data reflects the committed state -/

/-- C14: for the `Renderer` base and for `DiffusePathTracer`, `SciVis` and `Debug`: after
a commit on an object with pending store `o.params`, and after the pending store has then
been replaced by any other store `P'` without a commit, `populateFrameData` writes the
values that commit derived from `o.params`: the background colour, and for the three
classes their own parameter block (maxDepth and R; lightFalloff, aoSamples, aoColor and
aoIntensity; the integer of the method).  The rest of the frame block is unchanged, and
the base class leaves the parameter union unchanged as well. -/
theorem C14_populateFrameData_committed {β : Type} (toInt : Method → Int) (P' : ParamStore)
    (fd : FrameGPUData β) :
    (∀ r : Renderer,
      ({ r.commit with params := P' } : Renderer).populateFrameData fd
        = ⟨⟨getParam_vec4 r.params "backgroundColor".toList (Vec4.splat 1),
            fd.renderer.params⟩, fd.rest⟩) ∧
    (∀ o : DiffusePathTracer,
      ({ o.commit with params := P' } : DiffusePathTracer).populateFrameData fd
        = ⟨⟨getParam_vec4 o.params "backgroundColor".toList (Vec4.splat 1),
            .dpt (std_clamp (getParam_int o.params "maxDepth".toList 5) 1 256)
              (getParam_float o.params "R".toList (1 / 2))⟩, fd.rest⟩) ∧
    (∀ o : SciVis,
      ({ o.commit with params := P' } : SciVis).populateFrameData fd
        = ⟨⟨getParam_vec4 o.params "backgroundColor".toList (Vec4.splat 1),
            .scivis (std_clamp (getParam_float o.params "lightFalloff".toList (1 / 4)) 0 1)
              (std_clamp (getParam_int o.params "ambientSamples".toList 0) 0 256)
              (glm_clamp (getParam_vec3 o.params "ambientColor".toList (Vec3.splat 1))
                (Vec3.splat 0) (Vec3.splat 1))
              (getParam_float o.params "ambientIntensity".toList 1)⟩, fd.rest⟩) ∧
    (∀ o : Debug,
      ({ o.commit with params := P' } : Debug).populateFrameData toInt fd
        = ⟨⟨getParam_vec4 o.params "backgroundColor".toList (Vec4.splat 1),
            .debug (toInt (methodFromString
              (getParam_string o.params "method".toList "primID".toList)))⟩, fd.rest⟩) :=
  ⟨fun _ => rfl, fun _ => rfl, fun _ => rfl, fun _ => rfl⟩

/-! ## C11: the count of live renderers -/

theorem incr_mod (M n : Nat) (h : n + 1 < M) : (n + 1) % M = n + 1 :=
  Nat.mod_eq_of_lt h

theorem decr_mod (M n : Nat) (h0 : 0 < n) (h : n < M) : (n + M - 1) % M = n - 1 := by
  have e : n + M - 1 = (n - 1) + M := by omega
  rw [e, Nat.add_mod_right, Nat.mod_eq_of_lt (by omega)]

theorem Heap.step_count (h h' : Heap) (op : LifeOp) (hstep : h.step op = some h')
    (hlive : h.live.length ≤ h.statics.s_numRenderers)
    (hmax : h.statics.s_numRenderers + 1 < SIZE_RANGE) :
    h'.statics.s_numRenderers + h.live.length = h.statics.s_numRenderers + h'.live.length ∧
    h'.live.length ≤ h'.statics.s_numRenderers ∧
    h'.statics.s_numRenderers ≤ h.statics.s_numRenderers + 1 ∧
    (op.isDestroy = true → 0 < h.statics.s_numRenderers) ∧
    h'.live.length + (if op.isDestroy then 1 else 0)
      = h.live.length + (if op.isCreate then 1 else 0) := by
  generalize hM : SIZE_RANGE = M at hmax
  cases op with
  | create id =>
    by_cases hin : id ∈ h.live
    · simp only [Heap.step, hin, if_true] at hstep
      exact absurd hstep (by simp)
    · simp only [Heap.step, hin, if_false, Renderer.constructor, hM] at hstep
      rw [incr_mod M _ hmax] at hstep
      have e := Option.some.inj hstep
      subst e
      simp only [List.length_cons, LifeOp.isDestroy, LifeOp.isCreate]
      refine ⟨by omega, by omega, by omega, by simp, by simp⟩
  | destroy id =>
    by_cases hin : id ∈ h.live
    · have hpos : 0 < h.live.length := List.length_pos_of_mem hin
      have hcnt : 0 < h.statics.s_numRenderers := by omega
      simp only [Heap.step, hin, if_true, Renderer.destructor, hM] at hstep
      rw [decr_mod M _ hcnt (by omega)] at hstep
      have e := Option.some.inj hstep
      subst e
      simp only [List.length_erase_of_mem hin, LifeOp.isDestroy, LifeOp.isCreate]
      refine ⟨by omega, by omega, by omega, fun _ => hcnt, by simp; omega⟩
    · simp only [Heap.step, hin, if_false] at hstep
      exact absurd hstep (by simp)

theorem Heap.run_count :
    ∀ (ops : List LifeOp) (h h' : Heap), h.run ops = some h' →
      h.live.length ≤ h.statics.s_numRenderers →
      h.statics.s_numRenderers + ops.length < SIZE_RANGE →
      h'.statics.s_numRenderers + h.live.length
        = h.statics.s_numRenderers + h'.live.length ∧
      h'.live.length + ops.countP LifeOp.isDestroy
        = h.live.length + ops.countP LifeOp.isCreate ∧
      (∀ pre id post, ops = pre ++ LifeOp.destroy id :: post →
        ∃ h1, h.run pre = some h1 ∧ 0 < h1.statics.s_numRenderers) := by
  intro ops
  induction ops with
  | nil =>
    intro h h' hrun _ _
    simp only [Heap.run, Option.some.injEq] at hrun
    subst hrun
    refine ⟨rfl, by simp, ?_⟩
    intro pre id post hcontra
    simp at hcontra
  | cons op ops ih =>
    intro h h' hrun hlive hmax
    simp only [Heap.run] at hrun
    cases hstep : h.step op with
    | none => rw [hstep] at hrun; cases hrun
    | some h1 =>
      rw [hstep] at hrun
      simp only [List.length_cons] at hmax
      obtain ⟨s1, s2, s3, s4, s5⟩ := Heap.step_count h h1 op hstep hlive (by omega)
      obtain ⟨r1, r2, r3⟩ := ih h1 h' hrun s2 (by omega)
      refine ⟨by omega, ?_, ?_⟩
      · simp only [List.countP_cons]
        cases op <;> simp only [LifeOp.isDestroy, LifeOp.isCreate] at s5 ⊢ <;>
          simp at s5 ⊢ <;> omega
      · intro pre id post hsplit
        cases pre with
        | nil =>
          simp only [List.nil_append, List.cons.injEq] at hsplit
          refine ⟨h, rfl, s4 ?_⟩
          rw [hsplit.1]; rfl
        | cons p pre =>
          simp only [List.cons_append, List.cons.injEq] at hsplit
          obtain ⟨h2, g1, g2⟩ := r3 pre id post hsplit.2
          refine ⟨h2, ?_, g2⟩
          simp only [Heap.run, ← hsplit.1, hstep, g1]


/-- C11: starting with no live renderer and the count at its initial value `c0`, over
every sequence of constructions and destructions in which each destruction targets a live
renderer (and short enough that `c0` plus its length stays in the range of `size_t`),
`Renderer::objectCount()` equals `c0` plus the number of live renderers; if the sequence
has as many destructions as constructions the count is back at `c0`; and every destruction
finds the counter positive, so the counter never wraps below zero. -/
theorem C11_object_count (c0 : Nat) (ops : List LifeOp) (h' : Heap)
    (hrun : Heap.run ⟨⟨c0⟩, []⟩ ops = some h')
    (hmax : c0 + ops.length < SIZE_RANGE) :
    Renderer.objectCount h'.statics = c0 + h'.live.length ∧
    h'.live.length + ops.countP LifeOp.isDestroy = ops.countP LifeOp.isCreate ∧
    (ops.countP LifeOp.isDestroy = ops.countP LifeOp.isCreate →
      Renderer.objectCount h'.statics = c0 ∧ h'.live = []) ∧
    (∀ pre id post, ops = pre ++ LifeOp.destroy id :: post →
      ∃ h1, Heap.run ⟨⟨c0⟩, []⟩ pre = some h1 ∧ 0 < Renderer.objectCount h1.statics ∧
        Renderer.objectCount h1.statics < SIZE_RANGE) := by
  obtain ⟨r1, r2, r3⟩ := Heap.run_count ops ⟨⟨c0⟩, []⟩ h' hrun (Nat.zero_le _) hmax
  have r1' : h'.statics.s_numRenderers = c0 + h'.live.length := by
    have := r1
    simp only [List.length_nil, Nat.add_zero] at this
    exact this
  have r2' : h'.live.length + ops.countP LifeOp.isDestroy = ops.countP LifeOp.isCreate := by
    have := r2
    simp only [List.length_nil, Nat.zero_add] at this
    exact this
  refine ⟨r1', r2', ?_, ?_⟩
  · intro heq
    have hlen : h'.live.length = 0 := by omega
    refine ⟨?_, List.length_eq_zero.mp hlen⟩
    show h'.statics.s_numRenderers = c0
    omega
  · intro pre id post hsplit
    obtain ⟨h1, g1, g2⟩ := r3 pre id post hsplit
    have hl : pre.length + post.length + 1 = ops.length := by
      rw [hsplit]
      simp only [List.length_append, List.length_cons]
      omega
    obtain ⟨q1, q2, _⟩ := Heap.run_count pre ⟨⟨c0⟩, []⟩ h1 g1 (Nat.zero_le _)
      (Nat.lt_of_le_of_lt (Nat.add_le_add_left (by omega) c0) hmax)
    have q1' : h1.statics.s_numRenderers = c0 + h1.live.length := by
      have := q1
      simp only [List.length_nil, Nat.add_zero] at this
      exact this
    have q2' : h1.live.length + pre.countP LifeOp.isDestroy = pre.countP LifeOp.isCreate := by
      have := q2
      simp only [List.length_nil, Nat.zero_add] at this
      exact this
    have hcre : pre.countP LifeOp.isCreate ≤ pre.length := List.countP_le_length _
    have hlt : h1.statics.s_numRenderers < SIZE_RANGE := by omega
    exact ⟨h1, g1, g2, hlt⟩

theorem SIZE_RANGE_eq : SIZE_RANGE = 18446744073709551616 := by
  unfold SIZE_RANGE
  norm_num

/-- C11, instance: three renderers created and destroyed in interleaved order. -/
theorem C11_object_count_witness :
    Heap.run ⟨⟨0⟩, []⟩ [.create 1, .create 2, .destroy 1, .create 3, .destroy 3, .destroy 2]
      = some ⟨⟨0⟩, []⟩ ∧
    0 + [LifeOp.create 1, .create 2, .destroy 1, .create 3, .destroy 3, .destroy 2].length
      < SIZE_RANGE ∧
    Renderer.objectCount (⟨⟨0⟩, []⟩ : Heap).statics = 0 + (⟨⟨0⟩, []⟩ : Heap).live.length := by
  have h1 : Heap.run ⟨⟨0⟩, []⟩
      [.create 1, .create 2, .destroy 1, .create 3, .destroy 3, .destroy 2]
      = some ⟨⟨0⟩, []⟩ := by
    simp [Heap.run, Heap.step, Renderer.constructor, Renderer.destructor, SIZE_RANGE_eq]
  have h2 : 0 + [LifeOp.create 1, .create 2, .destroy 1, .create 3, .destroy 3,
      .destroy 2].length < SIZE_RANGE := by
    rw [SIZE_RANGE_eq]
    decide
  exact ⟨h1, h2, (C11_object_count 0 _ _ h1 h2).1⟩

/-! ## C17: the prefix test and the parameter lists -/

theorem longestBeginningMatch_eq (first second : Str) :
    longestBeginningMatch first second = commonPrefix first second := by
  induction first generalizing second with
  | nil => simp [longestBeginningMatch, commonPrefix]
  | cons x xs ih =>
    cases second with
    | nil => simp [longestBeginningMatch, commonPrefix, mismatch]
    | cons y ys =>
      have h := ih ys
      simp only [longestBeginningMatch] at h
      simp only [longestBeginningMatch, List.length_cons, Nat.add_min_add_right,
        List.take_succ_cons, mismatch, commonPrefix]
      by_cases hxy : x = y
      · simp only [hxy, if_true, List.take_succ_cons, h]
      · simp only [hxy, if_false, List.take_zero]

theorem commonPrefix_prefix_left (a b : Str) : commonPrefix a b <+: a := by
  induction a generalizing b with
  | nil => simp [commonPrefix]
  | cons x xs ih =>
    cases b with
    | nil => simp [commonPrefix]
    | cons y ys =>
      simp only [commonPrefix]
      split_ifs with h
      · exact (List.prefix_cons_inj x).mpr (ih ys)
      · exact List.nil_prefix

theorem commonPrefix_prefix_right (a b : Str) : commonPrefix a b <+: b := by
  induction a generalizing b with
  | nil => simp [commonPrefix]
  | cons x xs ih =>
    cases b with
    | nil => simp [commonPrefix]
    | cons y ys =>
      simp only [commonPrefix]
      split_ifs with h
      · subst h
        exact (List.prefix_cons_inj x).mpr (ih ys)
      · exact List.nil_prefix

theorem prefix_commonPrefix (a b c : Str) (ha : c <+: a) (hb : c <+: b) :
    c <+: commonPrefix a b := by
  induction c generalizing a b with
  | nil => exact List.nil_prefix
  | cons z zs ih =>
    obtain ⟨ra, rfl⟩ := ha
    obtain ⟨rb, rfl⟩ := hb
    simp only [List.cons_append, commonPrefix, if_true]
    exact (List.prefix_cons_inj z).mpr (ih _ _ (List.prefix_append _ _)
      (List.prefix_append _ _))

theorem beginsWith_iff (inputString startsWithString : Str) :
    beginsWith inputString startsWithString = true ↔ startsWithString <+: inputString := by
  simp only [beginsWith, longestBeginningMatch_eq, beq_iff_eq]
  constructor
  · intro h
    have h1 := commonPrefix_prefix_right inputString startsWithString
    have h2 := commonPrefix_prefix_left inputString startsWithString
    have := List.IsPrefix.eq_of_length h1 h
    rw [this] at h2
    exact h2
  · intro h
    have h1 := prefix_commonPrefix inputString startsWithString startsWithString h
      (List.prefix_refl _)
    have h2 := commonPrefix_prefix_right inputString startsWithString
    exact Nat.le_antisymm h2.length_le h1.length_le

/-- C17: `longestBeginningMatch` returns the longest common prefix of its arguments (a
prefix of both that every common prefix is a prefix of); `beginsWith(input, prefix)` is
true exactly when `prefix` is a prefix of `input`; `Renderer::getParameters` returns null
exactly when the subtype is none of the seven recognised names and does not start with
`"debug"`; every list it returns starts with `backgroundColor` (FLOAT32_VEC4) and
`pixelSamples` (INT32) and ends with the empty entry; and for `"foo_Ng.abs"` the factory
builds a Debug object while `getParameters` returns null. -/
theorem C17_prefix_test_and_parameter_lists :
    (∀ a b : Str, longestBeginningMatch a b <+: a ∧ longestBeginningMatch a b <+: b ∧
      ∀ c : Str, c <+: a → c <+: b → c <+: longestBeginningMatch a b) ∧
    (∀ a b : Str, beginsWith a b = true ↔ b <+: a) ∧
    (∀ subtype : Str, Renderer.getParameters subtype = none ↔
      (subtype ∉ recognisedNames ∧ ¬ "debug".toList <+: subtype)) ∧
    (∀ (subtype : Str) (l : List ANARIParameter), Renderer.getParameters subtype = some l →
      l.take 2 = [⟨some "backgroundColor".toList, ANARI_FLOAT32_VEC4⟩,
        ⟨some "pixelSamples".toList, ANARI_INT32⟩] ∧
      l.getLast? = some emptyParam) ∧
    (∀ init, make_renderer init "foo_Ng.abs".toList
      = some (.Debug ((Debug.new init).setParam "method".toList (.string "Ng.abs".toList)))) ∧
    Renderer.getParameters "foo_Ng.abs".toList = none := by
  refine ⟨?_, beginsWith_iff, ?_, ?_, ?_, by decide⟩
  · intro a b
    rw [longestBeginningMatch_eq]
    exact ⟨commonPrefix_prefix_left a b, commonPrefix_prefix_right a b,
      fun c => prefix_commonPrefix a b c⟩
  · intro subtype
    rw [← beginsWith_iff]
    by_cases h : subtype ∈ recognisedNames
    · have hall : ∀ x ∈ recognisedNames, Renderer.getParameters x ≠ none := by decide
      exact ⟨fun e => absurd e (hall subtype h), fun e => absurd h e.1⟩
    · have hs := h
      simp only [recognisedNames, List.mem_cons, List.mem_singleton, not_or,
        List.mem_nil_iff, or_false] at hs
      obtain ⟨h1, h2, h3, h4, h5, h6, h7⟩ := hs
      simp only [Renderer.getParameters, h1, h2, h3, h4, h5, h6, h7, if_false, or_self]
      by_cases hb : beginsWith subtype "debug".toList = true
      · rw [if_pos hb]
        exact ⟨fun e => Option.noConfusion e, fun e => absurd hb e.2⟩
      · rw [if_neg hb]
        exact ⟨fun _ => ⟨h, hb⟩, fun _ => rfl⟩
  · intro subtype l h
    unfold Renderer.getParameters at h
    split_ifs at h <;> (cases h; exact ⟨rfl, rfl⟩)
  · intro init
    have hs : "foo_Ng.abs".toList ∉ recognisedNames := by decide
    rw [make_renderer_unrecognised init _ hs]
    have ht : tokensOf "_".toList "foo_Ng.abs".toList = ["foo".toList, "Ng.abs".toList] := by
      decide
    rw [ht]

/-! ## C16: the split helper -/

theorem IsRuns.unique (p : Char → Bool) (input : Str) (ts : List Str)
    (h : IsRuns p input ts) :
    ts = (input.splitOnP p).filter (fun t => !t.isEmpty) := by
  induction h with
  | done us hus =>
    induction us with
    | nil => simp [List.splitOnP_nil]
    | cons u us ih =>
      rw [filter_splitOnP_cons_true p u us (hus u (List.mem_cons_self _ _))]
      exact ih (fun c hc => hus c (List.mem_cons_of_mem _ hc))
  | run us t rest ts hus ht hfree hrest _ ih =>
    have hlead : ∀ (us : Str), (∀ c ∈ us, p c = true) → ∀ l : Str,
        ((us ++ l).splitOnP p).filter (fun t => !t.isEmpty)
          = (l.splitOnP p).filter (fun t => !t.isEmpty) := by
      intro us
      induction us with
      | nil => intro _ l; rfl
      | cons u us ihu =>
        intro hus l
        rw [List.cons_append,
          filter_splitOnP_cons_true p u _ (hus u (List.mem_cons_self _ _))]
        exact ihu (fun c hc => hus c (List.mem_cons_of_mem _ hc)) l
    rw [List.append_assoc, hlead us hus]
    rcases hrest with rfl | ⟨c, r, rfl, hc⟩
    · rw [List.append_nil, filter_splitOnP_single p t ht hfree]
      rw [ih]
      simp [List.splitOnP_nil]
    · rw [filter_splitOnP_first p t c r ht hfree hc, ih,
        filter_splitOnP_cons_true p c r hc]

theorem IsRuns.exists (p : Char → Bool) :
    ∀ (n : Nat) (input : Str), input.length < n → ∃ ts, IsRuns p input ts := by
  intro n
  induction n with
  | zero => intro input h; exact absurd h (Nat.not_lt_zero _)
  | succ n ih =>
    intro input hlen
    rcases findIdx?_split (fun c => !p c) input with ⟨_, h2⟩ | ⟨pre, a, tl, h1, h2, h3, _⟩
    · refine ⟨[], IsRuns.done input ?_⟩
      intro c hc
      have := h2 c hc
      revert this
      cases p c <;> simp
    · have hpre : ∀ c ∈ pre, p c = true := by
        intro c hc
        have := h2 c hc
        revert this
        cases p c <;> simp
      have ha : p a = false := by
        revert h3
        cases p a <;> simp
      rcases findIdx?_split p (a :: tl) with ⟨_, g2⟩ | ⟨pre2, b, tl2, g1, g2, g3, _⟩
      · refine ⟨[a :: tl], ?_⟩
        have := IsRuns.run pre (a :: tl) [] [] hpre (by simp) g2 (Or.inl rfl)
          (IsRuns.done [] (by simp))
        rw [h1]
        simpa using this
      · have hpre2 : pre2 ≠ [] := by
          rintro rfl
          simp only [List.nil_append, List.cons.injEq] at g1
          rw [g1.1, g3] at ha
          exact absurd ha (by simp)
        have hl : input.length = pre.length + (pre2.length + (tl2.length + 1)) := by
          rw [h1, List.length_append, g1, List.length_append, List.length_cons]
        obtain ⟨ts, hts⟩ := ih (b :: tl2) (by
          simp only [List.length_cons]
          have := List.length_pos.mpr hpre2
          omega)
        refine ⟨pre2 :: ts, ?_⟩
        have := IsRuns.run pre pre2 (b :: tl2) ts hpre hpre2 g2 (Or.inr ⟨b, tl2, rfl, g3⟩) hts
        rw [h1, g1]
        simpa using this

theorem IsRuns.tokens (p : Char → Bool) (input : Str) (ts : List Str)
    (h : IsRuns p input ts) :
    (∀ t ∈ ts, t ≠ [] ∧ ∀ c ∈ t, p c = false) ∧
    ts.flatten = input.filter (fun c => !p c) := by
  induction h with
  | done us hus =>
    refine ⟨by simp, ?_⟩
    simp only [List.flatten_nil]
    symm
    rw [List.filter_eq_nil_iff]
    intro c hc
    simp [hus c hc]
  | run us t rest ts hus ht hfree _ _ ih =>
    refine ⟨?_, ?_⟩
    · intro x hx
      rcases List.mem_cons.mp hx with rfl | hx
      · exact ⟨ht, hfree⟩
      · exact ih.1 x hx
    · have e1 : us.filter (fun c => !p c) = [] := by
        rw [List.filter_eq_nil_iff]
        intro c hc
        simp [hus c hc]
      have e2 : t.filter (fun c => !p c) = t := by
        rw [List.filter_eq_self]
        intro c hc
        simp [hfree c hc]
      simp only [List.flatten_cons, List.filter_append, e1, e2, List.nil_append, ih.2]

theorem find_positions_increase (input delim : Str) (pos begin end_ : Nat)
    (h1 : find_first_not_of input delim pos = some begin)
    (h2 : find_first_of input delim begin = some end_) :
    pos ≤ begin ∧ begin < end_ ∧ end_ < input.length := by
  unfold find_first_not_of at h1
  rcases findIdx?_split (fun c => !delim.contains c) (input.drop pos) with
    ⟨e1, _⟩ | ⟨pre, a, tl, e1, _, e3, e4⟩
  · rw [e1] at h1; cases h1
  · rw [e4] at h1
    simp only [Option.some.injEq] at h1
    subst h1
    have hdrop : input.drop (pos + pre.length) = a :: tl := by
      rw [← List.drop_drop, e1]; simp
    unfold find_first_of at h2
    rw [hdrop] at h2
    have ha : delim.contains a = false := by
      revert e3
      cases delim.contains a <;> simp
    rcases findIdx?_split (fun c => delim.contains c) (a :: tl) with
      ⟨g1, _⟩ | ⟨pre2, b, tl2, g1, _, g3, g4⟩
    · rw [g1] at h2; cases h2
    · rw [g4] at h2
      simp only [Option.some.injEq] at h2
      subst h2
      have hpre2 : pre2 ≠ [] := by
        rintro rfl
        simp only [List.nil_append, List.cons.injEq] at g1
        rw [g1.1, g3] at ha
        exact absurd ha (by simp)
      have hpos := List.length_pos.mpr hpre2
      have hlen : (input.drop (pos + pre.length)).length
          = pre2.length + (tl2.length + 1) := by
        rw [hdrop, g1, List.length_append, List.length_cons]
      rw [List.length_drop] at hlen
      omega

theorem underscore_pred :
    (fun c => "_".toList.contains c) = (fun c : Char => c == '_') :=
  funext delim_underscore_contains

/-- C16: on every input, `splitString` with the delimiter `"_"` returns (within the fuel
of one unit per character plus one); in an iteration that finds a token and a delimiter
after it, the search position strictly increases (`pos ≤ begin < end`, and `end` becomes
the next position); the returned tokens are, in order, exactly the maximal underscore-free
runs of the input, and no other list is; every token is non-empty and contains no
underscore; their concatenation is the input with all underscores removed; and leading,
trailing and repeated underscores produce no empty token. -/
theorem C16_splitString_runs (input : Str) :
    ∃ tokens : List Str,
      splitString input "_".toList = some tokens ∧
      (∀ extra, splitLoop input "_".toList (input.length + 1 + extra) (some 0) []
        = some tokens) ∧
      IsRuns (fun c => c == '_') input tokens ∧
      (∀ ts, IsRuns (fun c => c == '_') input ts → ts = tokens) ∧
      (∀ t ∈ tokens, t ≠ [] ∧ '_' ∉ t) ∧
      tokens.flatten = input.filter (fun c => c != '_') ∧
      (∀ pos begin end_, find_first_not_of input "_".toList pos = some begin →
        find_first_of input "_".toList begin = some end_ →
        pos ≤ begin ∧ begin < end_ ∧ pos < end_ ∧ end_ < input.length) ∧
      splitString "__a__bc_".toList "_".toList = some ["a".toList, "bc".toList] ∧
      splitString "___".toList "_".toList = some [] := by
  obtain ⟨ts, hts⟩ := IsRuns.exists (fun c => c == '_') (input.length + 1) input
    (Nat.lt_succ_self _)
  have huniq := IsRuns.unique _ input ts hts
  have htok : tokensOf "_".toList input = ts := by
    rw [huniq]
    simp only [tokensOf, underscore_pred]
  refine ⟨ts, ?_, ?_, hts, ?_, ?_, ?_, ?_, by decide, by decide⟩
  · rw [splitString_eq, htok]
  · intro extra
    have := splitLoop_eq input "_".toList (input.length + 1 + extra) 0 []
      (by simp only [List.drop_zero]; omega)
    rw [this, List.nil_append, List.drop_zero, htok]
  · intro ts' hts'
    rw [IsRuns.unique _ input ts' hts', ← huniq]
  · intro t ht
    obtain ⟨h1, h2⟩ := (IsRuns.tokens _ input ts hts).1 t ht
    refine ⟨h1, fun hmem => ?_⟩
    have := h2 '_' hmem
    simp at this
  · have := (IsRuns.tokens _ input ts hts).2
    rw [this]
    rfl
  · intro pos begin end_ h1 h2
    obtain ⟨a, b, c⟩ := find_positions_increase input "_".toList pos begin end_ h1 h2
    exact ⟨a, b, by omega, c⟩

/-! ## C12: the pipeline is built lazily -/

theorem Renderer.call_built (ox : Optix) (state : DeviceGlobalState) (om : OptixModule)
    (missNames : List Str) (hitgroupNames : List HitgroupFunctionNames)
    (s : Renderer × List Event) (c : RendererCall) (h : s.1.m_pipeline ≠ none) :
    (Renderer.call ox state om missNames hitgroupNames s c).2 = s.2 ∧
    (Renderer.call ox state om missNames hitgroupNames s c).1.pipelineMembers
      = s.1.pipelineMembers := by
  cases c with
  | setParam name v => exact ⟨rfl, rfl⟩
  | commit => exact ⟨rfl, rfl⟩
  | sbt => simp only [Renderer.call, Renderer.sbt, h, if_false, and_self]

theorem Renderer.calls_built (ox : Optix) (state : DeviceGlobalState) (om : OptixModule)
    (missNames : List Str) (hitgroupNames : List HitgroupFunctionNames) :
    ∀ (cs : List RendererCall) (s : Renderer × List Event), s.1.m_pipeline ≠ none →
      (Renderer.calls ox state om missNames hitgroupNames s cs).2 = s.2 ∧
      (Renderer.calls ox state om missNames hitgroupNames s cs).1.pipelineMembers
        = s.1.pipelineMembers := by
  intro cs
  induction cs with
  | nil => intro s _; exact ⟨rfl, rfl⟩
  | cons c cs ih =>
    intro s h
    obtain ⟨h1, h2⟩ := Renderer.call_built ox state om missNames hitgroupNames s c h
    have hp : (Renderer.call ox state om missNames hitgroupNames s c).1.m_pipeline ≠ none := by
      have := congrArg (fun x => x.2.2.2.1) h2
      simp only [Renderer.pipelineMembers] at this
      rw [this]; exact h
    obtain ⟨g1, g2⟩ := ih _ hp
    simp only [Renderer.calls, List.foldl_cons] at g1 g2 ⊢
    exact ⟨g1.trans h1, g2.trans h2⟩

/-- C12: a freshly constructed renderer has a null pipeline handle and no program group;
`setParam` and `commit` (of the base class and of the three variants) change none of the
members that `initOptixPipeline` writes and add nothing to the device log, and
`populateFrameData` returns the frame block only; `Renderer::sbt()` on a null pipeline
handle is `initOptixPipeline` followed by the return of the table, and it creates at least
the raygen group; on a non-null handle it changes nothing and returns the stored table;
and from a state with a non-null handle, after any sequence of `setParam`, `commit` and
`sbt` calls the device log and the pipeline members are the same, and `sbt()` still
returns the same table. -/
theorem C12_lazy_pipeline (ox : Optix) (state : DeviceGlobalState) (om : OptixModule)
    (missNames : List Str) (hitgroupNames : List HitgroupFunctionNames) :
    (∀ init, (Renderer.new init).m_pipeline = none ∧ (Renderer.new init).m_raygenPGs = []) ∧
    (∀ r : Renderer, r.commit.pipelineMembers = r.pipelineMembers) ∧
    (∀ o : DiffusePathTracer, o.commit.pipelineMembers = o.pipelineMembers) ∧
    (∀ o : SciVis, o.commit.pipelineMembers = o.pipelineMembers) ∧
    (∀ o : Debug, o.commit.pipelineMembers = o.pipelineMembers) ∧
    (∀ s : Renderer × List Event, s.1.m_pipeline = none →
      Renderer.sbt ox state om missNames hitgroupNames s
        = ((initOptixPipeline ox state om missNames hitgroupNames s).1.m_sbt,
            initOptixPipeline ox state om missNames hitgroupNames s) ∧
      (createdGroups (eventsSince s.2
        (Renderer.sbt ox state om missNames hitgroupNames s).2.2)).length
        = 1 + missNames.length + hitgroupNames.length) ∧
    (∀ s : Renderer × List Event, s.1.m_pipeline ≠ none →
      Renderer.sbt ox state om missNames hitgroupNames s = (s.1.m_sbt, s)) ∧
    (∀ (s : Renderer × List Event) (cs : List RendererCall), s.1.m_pipeline ≠ none →
      (Renderer.calls ox state om missNames hitgroupNames s cs).2 = s.2 ∧
      (Renderer.calls ox state om missNames hitgroupNames s cs).1.pipelineMembers
        = s.1.pipelineMembers ∧
      (Renderer.sbt ox state om missNames hitgroupNames
        (Renderer.calls ox state om missNames hitgroupNames s cs)).1 = s.1.m_sbt ∧
      (Renderer.sbt ox state om missNames hitgroupNames
        (Renderer.calls ox state om missNames hitgroupNames s cs)).2.2 = s.2) := by
  refine ⟨fun _ => ⟨rfl, rfl⟩, fun _ => rfl, fun _ => rfl, fun _ => rfl, fun _ => rfl,
    ?_, ?_, ?_⟩
  · intro s hs
    have hsbt : Renderer.sbt ox state om missNames hitgroupNames s
        = ((initOptixPipeline ox state om missNames hitgroupNames s).1.m_sbt,
            initOptixPipeline ox state om missNames hitgroupNames s) := by
      simp only [Renderer.sbt, hs, if_true]
    refine ⟨hsbt, ?_⟩
    rw [hsbt]
    obtain ⟨pg, mpgs, hpgs, pl, rrec, mrecs, hrecs, rptr, mptr, hptr, h1, h2, _, _, _, h6⟩ :=
      initOptixPipeline_spec ox state om missNames hitgroupNames s.1 s.2
    obtain ⟨_, e1, _⟩ := h6.eventsSince
    rw [e1]
    simp only [List.length_cons, List.length_append, List.length_zip, List.length_map, h1,
      h2, Nat.min_self]
    omega
  · intro s hs
    simp only [Renderer.sbt, hs, if_false]
  · intro s cs hs
    obtain ⟨h1, h2⟩ := Renderer.calls_built ox state om missNames hitgroupNames cs s hs
    have hp := congrArg (fun x => x.2.2.2.1) h2
    have ht := congrArg (fun x => x.2.2.2.2.1) h2
    simp only [Renderer.pipelineMembers] at hp ht
    have hne : (Renderer.calls ox state om missNames hitgroupNames s cs).1.m_pipeline
        ≠ none := by rw [hp]; exact hs
    refine ⟨h1, h2, ?_, ?_⟩
    · simp only [Renderer.sbt, hne, if_false, ht]
    · simp only [Renderer.sbt, hne, if_false, h1]

/-- C12, instance: on a device where every call succeeds, the first `sbt()` on a fresh
renderer with the SciVis names builds the pipeline (handle 6, fourteen events); a commit and
two further `sbt()` calls then add no event and return the same table. -/
theorem C12_lazy_pipeline_witness :
    (Renderer.sbt Optix.succeeding DeviceGlobalState.sample (some 15) g_scivisMissNames
      g_scivisHitNames (Renderer.new MemberInits.sample, [])).2.1.m_pipeline = some 6 ∧
    (Renderer.sbt Optix.succeeding DeviceGlobalState.sample (some 15) g_scivisMissNames
      g_scivisHitNames (Renderer.new MemberInits.sample, [])).2.2.length = 14 ∧
    (Renderer.calls Optix.succeeding DeviceGlobalState.sample (some 15) g_scivisMissNames
      g_scivisHitNames
      (Renderer.sbt Optix.succeeding DeviceGlobalState.sample (some 15) g_scivisMissNames
        g_scivisHitNames (Renderer.new MemberInits.sample, [])).2
      [.commit, .sbt, .sbt]).2
      = (Renderer.sbt Optix.succeeding DeviceGlobalState.sample (some 15) g_scivisMissNames
        g_scivisHitNames (Renderer.new MemberInits.sample, [])).2.2 :=
  ⟨by decide, by decide,
    ((C12_lazy_pipeline Optix.succeeding DeviceGlobalState.sample (some 15) g_scivisMissNames
      g_scivisHitNames).2.2.2.2.2.2.2
      (Renderer.sbt Optix.succeeding DeviceGlobalState.sample (some 15) g_scivisMissNames
        g_scivisHitNames (Renderer.new MemberInits.sample, [])).2
      [.commit, .sbt, .sbt] (by decide)).1⟩

end visrtx
